import Mathlib

/-!
# nrf_comm.c : sensor node firmware (ATmega328P + nRF24L01)

A shallow embedding of `src/nrf_comm.c` as built (`DEV_ADDR 3`, `LOW_POWER_ENABLE`
defined, so `NUM_SENSORS` is 4 and the `#else` branches of the low-power
conditionals are not compiled).

* Globals and the peripheral registers the main loop touches are fields of
  `Device`.
* `uint8_t` / `uint16_t` values are `Nat`; every store that can overflow is
  reduced `% 256` / `% 65536` at the place the C code stores it.
* The radio driver (`Mirf`, declared in `Mirf.h`) is not part of this file: it
  is a parameter, `MirfDriver R`, over an arbitrary driver state `R`.
* Hardware inputs of one pass of `while(1)` (ADC result, one-wire bytes, which
  interrupt handlers run while the CPU sleeps) are the fields of `PassEnv`.
* Calls the main loop makes into collaborators and the writes to `TIMSK0` /
  `WDTCSR` are recorded, in program order, in the ghost field `Device.trace`.
* The wait loops take fuel; a loop that is out of fuel yields
  `Outcome.spinning` with the state it is stuck in.
-/

namespace NrfComm

/-! ## Declarations of `Mirf.h` used by `nrf_comm.c` -/

/-- Packet type tag (`PACKET_TYPE`). The four enumerators named in the source;
`other` stands for a tag value that is none of them (the numeric encoding of
the enumerators is declared in `Mirf.h` and plays no role here). -/
inductive PACKET_TYPE where
  | REQUEST
  | RESPONSE
  | PRESENTATION_REQUEST
  | PRESENTATION_RESPONSE
  | other (code : Nat)
  deriving DecidableEq, Repr

/-- Command tag (`CMD_TYPE`) of a request / response payload; `other` stands
for a value that is none of the four named enumerators. -/
inductive CMD_TYPE where
  | READ
  | WRITE
  | CALIBRATION_READ
  | CALIBRATION_WRITE
  | other (code : Nat)
  deriving DecidableEq, Repr

/-- Values of `Mirf.sendingStatus`; the source only names `IN_FIFO`. -/
inductive SENDING_STATUS where
  | IN_FIFO
  | other (code : Nat)
  deriving DecidableEq, Repr

/-- Values of `Mirf.sendResult`; the source names `PROCESSING` and `SUCCESS`. -/
inductive SEND_RESULT where
  | PROCESSING
  | SUCCESS
  | other (code : Nat)
  deriving DecidableEq, Repr

/-- View `payloadRequestStruct` of a packet payload. -/
structure payloadRequestStruct where
  cmd : CMD_TYPE
  for_sensor : Nat
  payload : Nat → Nat

/-- View `payloadResponseStruct` of a packet payload. -/
structure payloadResponseStruct where
  cmd : CMD_TYPE
  from_sensor : Nat
  len : Nat
  payload : Nat → Nat

/-- View `payloadPresentationStruct` of a packet payload. -/
structure payloadPresentationStruct where
  num_sensors : Nat
  sensor_type : Nat → Nat

/-- The payload bytes of a packet, as seen through the three view structs the
source casts `&packet.payload` to. The byte layout of the views is declared in
`Mirf.h`, so the fields of each view are kept by name; a field is only ever
read below through the view it was written through. -/
structure mirfPayload where
  req : payloadRequestStruct
  res : payloadResponseStruct
  pres : payloadPresentationStruct

/-- Radio packet (`mirfPacket`). -/
structure mirfPacket where
  txAddr : Nat
  rxAddr : Nat
  type : PACKET_TYPE
  counter : Nat
  payload : mirfPayload

/-- The radio driver object `Mirf`, over its own state `R`: the member
functions and status fields `nrf_comm.c` uses. -/
structure MirfDriver (R : Type) where
  sendPacket : R → mirfPacket → R
  readPacket : R → mirfPacket × R
  handleRxLoop : R → R
  handleTxLoop : R → R
  powerUpRx : R → R
  powerDown : R → R
  inPacketReady : R → Bool
  sendingStatus : R → SENDING_STATUS
  sendResult : R → SEND_RESULT

/-! ## Constants of `nrf_comm.c` and bit numbers of `avr/io.h` (ATmega328P) -/

def DEV_ADDR : Nat := 3
def TIMER_3_SEC_PERIOD : Nat := 300
def SENSOR_0_CALIB_ADDR : Nat := 1
def NUM_SENSORS : Nat := 4
def LOW_POWER_SENSOR_TYPE_FLAG : Nat := 128
def SENSOR_0_TYPE : Nat := 3
def SENSOR_1_TYPE : Nat := 0
def SENSOR_2_TYPE : Nat := 4 + LOW_POWER_SENSOR_TYPE_FLAG
def SENSOR_3_TYPE : Nat := 6
def LOW_POWER_CYCLES : Nat := 8

def _BV (bit : Nat) : Nat := 1 <<< bit
def REFS1 : Nat := 7
def REFS0 : Nat := 6
def MUX3 : Nat := 3
def MUX2 : Nat := 2
def MUX1 : Nat := 1
def ADSC : Nat := 6
def PRADC : Nat := 0
def WDIE : Nat := 6
def WDP3 : Nat := 5
def WDCE : Nat := 4
def WDE : Nat := 3
def WDP0 : Nat := 0
def SE : Nat := 0

def REF_VCC_INPUT_INTERNAL : Nat := _BV REFS0 ||| (_BV MUX3 ||| _BV MUX2 ||| _BV MUX1)

/-! ## Device state -/

/-- The union `IntUnion` (little endian: `uint = lsb + 256 * msb`). -/
structure IntUnion where
  lsb : Nat
  msb : Nat

/-- Calls into collaborators and interrupt-enable register writes, as they
happen in program order. -/
inductive Event where
  | sendPacket (p : mirfPacket)
  | readPacket
  | handleRxLoop
  | handleTxLoop
  | powerUpRx
  | powerDown
  | eeprom_write_byte (addr val : Nat)
  | DS1820StartConversion
  | DS1820ReadConversionResult
  | startAdcConversion
  | sleep_cpu
  | writeTIMSK0 (val : Nat)
  | writeWDTCSR (val : Nat)

/-- Globals of `nrf_comm.c`, the registers it writes, the EEPROM, the radio
driver state and the ghost trace. -/
structure Device (R : Type) where
  inPacket : mirfPacket
  outPacket : mirfPacket
  pinState : Nat
  internalTempCalib : Nat
  longTimer : Nat
  timerInterruptTriggered : Nat
  wdt_timer : Nat
  low_power_mode : Nat
  adcVal : Nat
  ds1820Temp : IntUnion
  actual_Vcc : Nat
  SMCR : Nat
  WDTCSR : Nat
  TIMSK0 : Nat
  TIFR0 : Nat
  ADMUX : Nat
  ADCSRA : Nat
  ADCW : Nat
  PRR : Nat
  eeprom : Nat → Nat
  Mirf : R
  trace : List Event

/-- Hardware inputs of one pass of the main loop. -/
structure PassEnv where
  /-- Conversion result found in `ADCW` when `startAdcConversion` returns. -/
  ADCW : Nat
  /-- First byte returned by `ow_byte_rd` in `DS1820ReadConversionResult`. -/
  ow_lsb : Nat
  /-- Second byte returned by `ow_byte_rd`. -/
  ow_msb : Nat
  /-- Answer of the k-th call of `DS18X20_conversion_in_progress` in the pass:
  `none` when the probe is done, `some t` when it is still converting and `t`
  timer ticks occur during the idle sleep that follows. -/
  converting : Nat → Option Nat
  /-- Watchdog expiries (runs of `WDT_vect`) during a power-down sleep. -/
  wdtExpiries : Nat
  /-- Timer ticks (runs of `TIMER0_COMPA_vect`) during the idle sleep at the
  end of the pass. -/
  timerTicks : Nat

/-- Result of running code that contains a wait loop. -/
inductive Outcome (R : Type) where
  | returned (d : Device R)
  | spinning (d : Device R)

variable {R : Type}

/-- The device state carried by an outcome. -/
def Outcome.state : Outcome R → Device R
  | .returned d => d
  | .spinning d => d

/-- Sequencing: the rest of the code only runs when the first part returned. -/
def Outcome.andThen (o : Outcome R) (k : Device R → Outcome R) : Outcome R :=
  match o with
  | .returned d => k d
  | .spinning d => .spinning d

/-- Packets handed to `Mirf.sendPacket`, in order. -/
def sentPackets : List Event → List mirfPacket
  | [] => []
  | .sendPacket p :: es => p :: sentPackets es
  | _ :: es => sentPackets es

/-- Values written with `eeprom_write_byte`, as (address, value), in order. -/
def eepromWrites : List Event → List (Nat × Nat)
  | [] => []
  | .eeprom_write_byte a v :: es => (a, v) :: eepromWrites es
  | _ :: es => eepromWrites es

/-- Append one event to the trace. -/
def emit (e : Event) (d : Device R) : Device R :=
  { d with trace := d.trace ++ [e] }

/-- Store one element of a byte array. -/
def setByte (a : Nat → Nat) (i v : Nat) : Nat → Nat :=
  fun j => if j = i then v else a j

/-! ## Interrupt handlers (lines 94-113) -/

def TIMER0_COMPA_vect (d : Device R) : Device R :=
  { d with timerInterruptTriggered := (d.timerInterruptTriggered + 1) % 256,
           longTimer := (d.longTimer + 1) % 65536 }

def ADC_vect (d : Device R) : Device R :=
  { d with SMCR := 0 }

def WDT_vect (d : Device R) : Device R :=
  { d with wdt_timer := (d.wdt_timer + 1) % 256 }

/-- Run an interrupt handler `n` times. -/
def fire (isr : Device R → Device R) : Nat → Device R → Device R
  | 0, d => d
  | n + 1, d => fire isr n (isr d)

/-! ## avr-libc sleep helpers and register stores -/

def sleep_enable (d : Device R) : Device R :=
  { d with SMCR := d.SMCR ||| _BV SE }

def sleep_disable (d : Device R) : Device R :=
  { d with SMCR := d.SMCR &&& (255 - _BV SE) }

/-- The instruction `sleep`: the CPU halts until an interrupt; `wake` is what
the handlers that run before it resumes do to the state. -/
def sleep_cpu (wake : Device R → Device R) (d : Device R) : Device R :=
  wake (emit .sleep_cpu d)

def ADC_ON (d : Device R) : Device R :=
  { d with PRR := d.PRR &&& (255 - _BV PRADC) }

def ADC_OFF (d : Device R) : Device R :=
  { d with PRR := d.PRR ||| _BV PRADC }

def setTIMSK0 (v : Nat) (d : Device R) : Device R :=
  emit (.writeTIMSK0 v) { d with TIMSK0 := v }

def setWDTCSR (v : Nat) (d : Device R) : Device R :=
  emit (.writeWDTCSR v) { d with WDTCSR := v }

/-- Library call `eeprom_write_byte`. -/
def eeprom_write_byte (addr val : Nat) (d : Device R) : Device R :=
  emit (.eeprom_write_byte addr val) { d with eeprom := setByte d.eeprom addr val }

/-! ## Radio driver calls -/

def Mirf_sendPacket (M : MirfDriver R) (d : Device R) : Device R :=
  emit (.sendPacket d.outPacket) { d with Mirf := M.sendPacket d.Mirf d.outPacket }

def Mirf_readPacket (M : MirfDriver R) (d : Device R) : Device R :=
  emit .readPacket { d with inPacket := (M.readPacket d.Mirf).1, Mirf := (M.readPacket d.Mirf).2 }

def Mirf_handleRxLoop (M : MirfDriver R) (d : Device R) : Device R :=
  emit .handleRxLoop { d with Mirf := M.handleRxLoop d.Mirf }

def Mirf_handleTxLoop (M : MirfDriver R) (d : Device R) : Device R :=
  emit .handleTxLoop { d with Mirf := M.handleTxLoop d.Mirf }

def Mirf_powerUpRx (M : MirfDriver R) (d : Device R) : Device R :=
  emit .powerUpRx { d with Mirf := M.powerUpRx d.Mirf }

def Mirf_powerDown (M : MirfDriver R) (d : Device R) : Device R :=
  emit .powerDown { d with Mirf := M.powerDown d.Mirf }

/-! ## Probe and ADC helpers (lines 115-173) -/

def DS1820StartConversion (d : Device R) : Device R :=
  emit .DS1820StartConversion d

/-- Lines 128-138. `poll` counts the calls of `DS18X20_conversion_in_progress`
made so far. -/
def DS1820WaitForEndConversion_sleep (env : PassEnv) : Nat → Nat → Device R → Outcome R
  | fuel, poll, d =>
    match env.converting poll with
    | none => .returned (sleep_disable d)
    | some ticks =>
      match fuel with
      | 0 => .spinning d
      | fuel + 1 =>
        DS1820WaitForEndConversion_sleep env fuel (poll + 1)
          (sleep_cpu (fire TIMER0_COMPA_vect ticks) (sleep_enable { d with SMCR := 0 }))

/-- Lines 140-150. -/
def DS1820ReadConversionResult (env : PassEnv) (d : Device R) : Device R :=
  emit .DS1820ReadConversionResult
    { d with ds1820Temp := { lsb := env.ow_lsb % 256, msb := env.ow_msb % 256 } }

/-- Lines 162-173. The sleep ends with the conversion-complete interrupt; the
result is then in `ADCW`. -/
def startAdcConversion (env : PassEnv) (d : Device R) : Device R :=
  let d := emit .startAdcConversion d
  let d := { d with SMCR := 2 }
  let d := { d with ADCSRA := d.ADCSRA ||| _BV ADSC }
  let d := sleep_enable d
  sleep_cpu (fun s => ADC_vect { s with ADCW := env.ADCW }) d

/-! ## Machine arithmetic -/

/-- Line 344: `ADCW - 19 - internalTempCalib` in 16-bit unsigned arithmetic,
stored into a `uint8_t`. -/
def internalTempReading (adcw calib : Nat) : Nat :=
  ((((adcw : Int) - 19 - (calib : Int)) % 65536) % 256).toNat

/-- Lines 241 and 279: `56265 / ADCW` stored into a `uint8_t`. (Division by a
zero count is undefined in C; here it yields 0.) -/
def vccReading (adcw : Nat) : Nat :=
  (56265 / adcw) % 256

/-! ## Dispatcher (lines 326-425) -/

/-- Update the response view of `outPacket`. -/
def setRes (f : payloadResponseStruct → payloadResponseStruct) (d : Device R) : Device R :=
  { d with outPacket := { d.outPacket with
      payload := { d.outPacket.payload with res := f d.outPacket.payload.res } } }

/-- Update the presentation view of `outPacket`. -/
def setPres (f : payloadPresentationStruct → payloadPresentationStruct) (d : Device R) :
    Device R :=
  { d with outPacket := { d.outPacket with
      payload := { d.outPacket.payload with pres := f d.outPacket.payload.pres } } }

/-- Line 398: `while (Mirf.sendResult == PROCESSING) NOP_ASM`. -/
def waitSendResult (M : MirfDriver R) : Nat → Device R → Outcome R
  | fuel, d =>
    if M.sendResult d.Mirf = .PROCESSING then
      match fuel with
      | 0 => .spinning d
      | fuel + 1 => waitSendResult M fuel d
    else .returned d

/-- Lines 336-363: sensor 0, internal temperature. -/
def handleSensor0 (M : MirfDriver R) (env : PassEnv) (d : Device R) : Device R :=
  let req := d.inPacket.payload.req
  if req.cmd = .READ then
    let d := ADC_ON d
    let d := { d with ADMUX := _BV REFS1 ||| _BV REFS0 ||| _BV MUX3 }
    let d := startAdcConversion env d
    let d := { d with ADMUX := REF_VCC_INPUT_INTERNAL }
    let d := { d with adcVal := internalTempReading d.ADCW d.internalTempCalib }
    let d := ADC_OFF d
    let d := setRes (fun r => { r with payload := setByte r.payload 0 d.adcVal }) d
    Mirf_sendPacket M d
  else if req.cmd = .CALIBRATION_WRITE then
    if d.internalTempCalib ≠ req.payload 0 then
      let d := { d with internalTempCalib := req.payload 0 }
      eeprom_write_byte SENSOR_0_CALIB_ADDR (req.payload 0) d
    else d
  else if req.cmd = .CALIBRATION_READ then
    let d := setRes (fun r => { r with payload := setByte r.payload 0 d.internalTempCalib }) d
    Mirf_sendPacket M d
  else d

/-- Lines 364-376: sensor 1, switched output. -/
def handleSensor1 (M : MirfDriver R) (d : Device R) : Device R :=
  let req := d.inPacket.payload.req
  if req.cmd = .WRITE then
    if req.payload 0 > 0 then { d with pinState := 1 } else { d with pinState := 0 }
  else if req.cmd = .READ then
    let d := setRes (fun r => { r with payload := setByte r.payload 0 d.pinState }) d
    Mirf_sendPacket M d
  else d

/-- Lines 381-397: sensor 2, DS18B20 probe plus supply voltage. The cached
values are put into the response, the packet is sent and the outbound queue is
serviced once. -/
def sendSensor2 (M : MirfDriver R) (d : Device R) : Device R :=
  let d := setRes (fun r => { r with len := 3 }) d
  let d := setRes (fun r => { r with payload := setByte r.payload 2 d.actual_Vcc }) d
  let d := setRes (fun r => { r with payload := setByte r.payload 0 d.ds1820Temp.lsb }) d
  let d := setRes (fun r => { r with payload := setByte r.payload 1 d.ds1820Temp.msb }) d
  let d := Mirf_sendPacket M d
  Mirf_handleTxLoop M d

/-- Lines 377-403: sensor 2; after sending, wait for the send result and on
success credit `longTimer` with the length of the awake window. -/
def handleSensor2 (M : MirfDriver R) (fuel : Nat) (d : Device R) : Outcome R :=
  let d := sendSensor2 M d
  (waitSendResult M fuel d).andThen fun d =>
    if M.sendResult d.Mirf = .SUCCESS then
      .returned { d with longTimer := (d.longTimer + TIMER_3_SEC_PERIOD) % 65536 }
    else .returned d

/-- Lines 404-408: sensor 3, supply battery. -/
def handleSensor3 (M : MirfDriver R) (d : Device R) : Device R :=
  let d := setRes (fun r => { r with len := 2 }) d
  Mirf_sendPacket M d

/-- Lines 329-334: the response header, filled in before the sensor is looked at. -/
def beginResponse (d : Device R) : Device R :=
  let req := d.inPacket.payload.req
  let d := { d with outPacket := { d.outPacket with type := .RESPONSE } }
  let d := { d with outPacket := { d.outPacket with rxAddr := d.inPacket.txAddr } }
  let d := setRes (fun r => { r with cmd := req.cmd }) d
  let d := setRes (fun r => { r with from_sensor := req.for_sensor }) d
  setRes (fun r => { r with len := 1 }) d

/-- Lines 328-408: the `REQUEST` branch. -/
def handleRequest (M : MirfDriver R) (env : PassEnv) (fuel : Nat) (d : Device R) : Outcome R :=
  let req := d.inPacket.payload.req
  let d := beginResponse d
  if req.for_sensor = 0 then .returned (handleSensor0 M env d)
  else if req.for_sensor = 1 then .returned (handleSensor1 M d)
  else if req.for_sensor = 2 then handleSensor2 M fuel d
  else if req.for_sensor = 3 then .returned (handleSensor3 M d)
  else .returned d

/-- Lines 410-420: the `PRESENTATION_REQUEST` branch. -/
def handlePresentationRequest (M : MirfDriver R) (d : Device R) : Device R :=
  let d := { d with outPacket := { d.outPacket with type := .PRESENTATION_RESPONSE } }
  let d := setPres (fun p => { p with num_sensors := NUM_SENSORS }) d
  let d := setPres (fun p => { p with sensor_type := setByte p.sensor_type 0 SENSOR_0_TYPE }) d
  let d := setPres (fun p => { p with sensor_type := setByte p.sensor_type 1 SENSOR_1_TYPE }) d
  let d := setPres (fun p => { p with sensor_type := setByte p.sensor_type 2 SENSOR_2_TYPE }) d
  let d := setPres (fun p => { p with sensor_type := setByte p.sensor_type 3 SENSOR_3_TYPE }) d
  Mirf_sendPacket M d

/-- Lines 422-425: push a staged packet to the transceiver at once. -/
def flushInFifo (M : MirfDriver R) (d : Device R) : Device R :=
  if M.sendingStatus d.Mirf = .IN_FIFO then Mirf_handleTxLoop M d else d

/-- Lines 326-425: what the main loop does with the packet in `inPacket`. -/
def dispatch (M : MirfDriver R) (env : PassEnv) (fuel : Nat) (d : Device R) : Outcome R :=
  (if d.inPacket.type = .REQUEST then handleRequest M env fuel d
   else if d.inPacket.type = .PRESENTATION_REQUEST then
     .returned (handlePresentationRequest M d)
   else .returned d).andThen fun d => .returned (flushInFifo M d)

/-! ## One pass of `while(1)` (lines 248-473) -/

/-- Lines 255-284: the sleep window has elapsed. Watchdog off, mode flag
cleared, probe conversion started, supply voltage measured meanwhile, timer
interrupt enabled again. -/
def wakeUpRefresh (env : PassEnv) (d : Device R) : Device R :=
  let d := ADC_ON d
  let d := { d with SMCR := 0 }
  let d := setWDTCSR (_BV WDCE ||| _BV WDE) d
  let d := setWDTCSR 0 d
  let d := { d with wdt_timer := 0 }
  let d := { d with low_power_mode := 0 }
  let d := DS1820StartConversion d
  let d := { d with ADMUX := REF_VCC_INPUT_INTERNAL }
  let d := startAdcConversion env d
  let d := { d with actual_Vcc := vccReading d.ADCW }
  let d := ADC_OFF d
  let d := { d with TIFR0 := 2 }
  setTIMSK0 2 d

/-- Lines 288-293: collect the probe result, switch the receiver on and force
one service pass of the radio queues. -/
def wakeUpCollect (M : MirfDriver R) (env : PassEnv) (d : Device R) : Device R :=
  let d := DS1820ReadConversionResult env d
  let d := Mirf_powerUpRx M d
  { d with timerInterruptTriggered := (d.timerInterruptTriggered + 1) % 256 }

/-- Lines 254-294: the wake-up sequence, with the probe wait of line 287 in
the middle. -/
def wakeUp (M : MirfDriver R) (env : PassEnv) (fuel : Nat) (d : Device R) : Outcome R :=
  (DS1820WaitForEndConversion_sleep env fuel 0 (wakeUpRefresh env d)).andThen fun d =>
    .returned (wakeUpCollect M env d)

/-- Lines 295-300: re-arm the watchdog interrupt and sleep on. -/
def continueSleep (env : PassEnv) (d : Device R) : Device R :=
  let d := setWDTCSR (d.WDTCSR ||| _BV WDIE) d
  let d := { d with SMCR := 4 }
  let d := sleep_enable d
  sleep_cpu (fire WDT_vect env.wdtExpiries) d

/-- Lines 430-446: enter power-down mode. -/
def enterPowerDown (M : MirfDriver R) (env : PassEnv) (d : Device R) : Device R :=
  let d := { d with longTimer := 0 }
  let d := setTIMSK0 0 d
  let d := { d with SMCR := 4 }
  let d := setWDTCSR (_BV WDCE ||| _BV WDE ||| _BV WDP3 ||| _BV WDP0) d
  let d := setWDTCSR (_BV WDIE ||| _BV WDP3 ||| _BV WDP0) d
  let d := { d with wdt_timer := 0 }
  let d := { d with low_power_mode := 1 }
  let d := Mirf_powerDown M d
  let d := sleep_enable d
  sleep_cpu (fire WDT_vect env.wdtExpiries) d

/-- Lines 456-472: nothing to do, idle until the next interrupt. -/
def idleSleep (env : PassEnv) (d : Device R) : Device R :=
  let d := sleep_enable d
  let d := sleep_cpu (fire TIMER0_COMPA_vect env.timerTicks) d
  sleep_disable d

/-- Lines 311-316: service the radio queues when a tick was seen. -/
def pumpQueues (M : MirfDriver R) (d : Device R) : Device R :=
  if d.timerInterruptTriggered > 0 then
    let d := { d with timerInterruptTriggered := 0 }
    let d := Mirf_handleRxLoop M d
    Mirf_handleTxLoop M d
  else d

/-- Lines 249-472: the body of `while(1)`. -/
def mainLoopPass (M : MirfDriver R) (env : PassEnv) (fuel : Nat) (d : Device R) : Outcome R :=
  if d.low_power_mode = 1 then
    if d.wdt_timer = LOW_POWER_CYCLES then wakeUp M env fuel d
    else .returned (continueSleep env d)
  else
    let d := pumpQueues M d
    if M.inPacketReady d.Mirf then
      let d := Mirf_readPacket M d
      dispatch M env fuel d
    else if d.longTimer > TIMER_3_SEC_PERIOD then .returned (enterPowerDown M env d)
    else .returned (idleSleep env d)

/-- Consecutive passes of the main loop, one `PassEnv` per pass; stops at a
pass that does not return. -/
def runPasses (M : MirfDriver R) (fuel : Nat) : List PassEnv → Device R → Outcome R
  | [], d => .returned d
  | env :: envs, d => (mainLoopPass M env fuel d).andThen (runPasses M fuel envs)

/-! ## Sample inputs (used to instantiate the theorems below) -/

/-- A radio driver without state: nothing received, nothing pending. -/
def quietDriver : MirfDriver Unit where
  sendPacket := fun _ _ => ()
  readPacket := fun _ =>
    ({ txAddr := 1, rxAddr := 3, type := .other 0, counter := 0,
       payload := { req := { cmd := .other 0, for_sensor := 0, payload := fun _ => 0 },
                    res := { cmd := .other 0, from_sensor := 0, len := 0, payload := fun _ => 0 },
                    pres := { num_sensors := 0, sensor_type := fun _ => 0 } } }, ())
  handleRxLoop := fun _ => ()
  handleTxLoop := fun _ => ()
  powerUpRx := fun _ => ()
  powerDown := fun _ => ()
  inPacketReady := fun _ => false
  sendingStatus := fun _ => .other 0
  sendResult := fun _ => .SUCCESS

/-- A packet with every numeric field zero and unnamed tags. -/
def zeroPacket : mirfPacket :=
  { txAddr := 0, rxAddr := 0, type := .other 0, counter := 0,
    payload := { req := { cmd := .other 0, for_sensor := 0, payload := fun _ => 0 },
                 res := { cmd := .other 0, from_sensor := 0, len := 0, payload := fun _ => 0 },
                 pres := { num_sensors := 0, sensor_type := fun _ => 0 } } }

/-- A request packet from the master (address 1) to this node. -/
def requestPacket (cmd : CMD_TYPE) (sensor v : Nat) : mirfPacket :=
  { zeroPacket with
    txAddr := 1, rxAddr := DEV_ADDR, type := .REQUEST,
    payload := { zeroPacket.payload with
      req := { cmd := cmd, for_sensor := sensor, payload := fun _ => v } } }

/-- A device state like the one the main loop is first entered with
(calibration never written, timer tick enabled, watchdog off). -/
def sampleDevice : Device Unit :=
  { inPacket := zeroPacket, outPacket := zeroPacket, pinState := 1,
    internalTempCalib := 128, longTimer := 0, timerInterruptTriggered := 0,
    wdt_timer := 0, low_power_mode := 0, adcVal := 0,
    ds1820Temp := { lsb := 0x50, msb := 0x01 }, actual_Vcc := 169,
    SMCR := 0, WDTCSR := 0, TIMSK0 := 2, TIFR0 := 0, ADMUX := 78, ADCSRA := 0x8F,
    ADCW := 331, PRR := 0xCB, eeprom := fun _ => 0xFF, Mirf := (), trace := [] }

/-- The sample device with a request from the master waiting in `inPacket`. -/
def sampleWithRequest (cmd : CMD_TYPE) (sensor v : Nat) : Device Unit :=
  { sampleDevice with inPacket := requestPacket cmd sensor v }

/-- A pass environment: ADC count 350, probe done at once, one watchdog
expiry per power-down sleep, one timer tick per idle sleep. -/
def sampleEnv : PassEnv :=
  { ADCW := 350, ow_lsb := 0x50, ow_msb := 0x01, converting := fun _ => none,
    wdtExpiries := 1, timerTicks := 1 }

/-- The sample device after a WRITE of 5 to sensor 1 was handled, with a READ of
sensor 1 waiting in `inPacket`. -/
def sampleAfterWrite : Device Unit :=
  { (dispatch quietDriver sampleEnv 0 (sampleWithRequest .WRITE 1 5)).state with
    inPacket := requestPacket .READ 1 0 }

/-- The sample device with calibration byte `c` and a READ of sensor 0 waiting. -/
def sampleCalibrated (c : Nat) : Device Unit :=
  { sampleWithRequest .READ 0 0 with internalTempCalib := c }

/-- The sample environment with ADC count `a`. -/
def sampleEnvWithAdc (a : Nat) : PassEnv :=
  { sampleEnv with ADCW := a }

/-- The sample device asleep: power-down mode entered, no watchdog expiry yet. -/
def sampleAsleep : Device Unit :=
  { sampleDevice with low_power_mode := 1, wdt_timer := 0, TIMSK0 := 0, WDTCSR := 0x61 }

/-- The sample device at the end of its awake window: `longTimer` past the
threshold. -/
def sampleWindowOver : Device Unit :=
  { sampleDevice with longTimer := 301 }

/-- Events that are packet processing: the calls `Mirf.handleRxLoop`,
`Mirf.handleTxLoop`, `Mirf.readPacket` and `Mirf.sendPacket`. -/
def isPacketProcessing : Event → Bool
  | .sendPacket _ => true
  | .readPacket => true
  | .handleRxLoop => true
  | .handleTxLoop => true
  | _ => false

/-! ## Start-up (lines 176-244) -/

def ADEN : Nat := 7
def ADIE : Nat := 3
def ADPS2 : Nat := 2
def ADPS1 : Nat := 1
def ADPS0 : Nat := 0
def PRTWI : Nat := 7
def PRTIM2 : Nat := 6
def PRTIM1 : Nat := 3
def PRUSART0 : Nat := 1
def OCIE0A : Nat := 1

/-- The member functions of the radio driver object that only `setup` calls. -/
structure MirfStartup (R : Type) where
  init : R → R
  config : R → R
  setDevAddr : R → Nat → R

/-- Library call `eeprom_read_byte`. -/
def eeprom_read_byte (addr : Nat) (d : Device R) : Nat :=
  d.eeprom addr

/-- The avr-libc routine `wdt_disable`: the timed sequence that sets WDCE and
WDE in `WDTCSR` and then clears the register. -/
def wdt_disable (d : Device R) : Device R :=
  let d := setWDTCSR (d.WDTCSR ||| (_BV WDCE ||| _BV WDE)) d
  setWDTCSR 0 d

/-- Lines 176-223. The stores to the UART, timer-0 compare / prescaler and
comparator registers and the probe scratchpad write (lines 179-182, 189-194,
204-207, 220) act on hardware that is not part of `Device` and have no
counterpart here; `init`, `config` and `setDevAddr` act on the driver state
only. -/
def setup (B : MirfStartup R) (M : MirfDriver R) (d : Device R) : Device R :=
  let d := { d with internalTempCalib := eeprom_read_byte SENSOR_0_CALIB_ADDR d }
  let d := if d.internalTempCalib = 0xFF then { d with internalTempCalib := 128 } else d
  let d := { d with Mirf := B.init d.Mirf }
  let d := { d with Mirf := B.config d.Mirf }
  let d := { d with Mirf := B.setDevAddr d.Mirf DEV_ADDR }
  let d := Mirf_powerUpRx M d
  let d := setTIMSK0 2 d
  let d := { d with ADMUX := REF_VCC_INPUT_INTERNAL }
  let d := { d with
    ADCSRA := _BV ADEN ||| _BV ADIE ||| _BV ADPS2 ||| _BV ADPS1 ||| _BV ADPS0 }
  let d := { d with pinState := 1 }
  { d with PRR := _BV PRTWI ||| _BV PRTIM1 ||| _BV PRTIM2 ||| _BV PRUSART0 }

/-- Lines 120-123: poll the probe in a busy loop (no sleep, interrupts are
still off). `poll` counts the calls of `DS18X20_conversion_in_progress`. -/
def DS1820WaitForEndConversion_loop (env : PassEnv) : Nat → Nat → Device R → Outcome R
  | 0, poll, d =>
    match env.converting poll with
    | none => .returned d
    | some _ => .spinning d
  | fuel + 1, poll, d =>
    match env.converting poll with
    | none => .returned d
    | some _ => DS1820WaitForEndConversion_loop env fuel (poll + 1) d

/-- The packet left by `memset(&outPacket, 0, sizeof(mirfPacket))`; `t0` and
`c0` are the type and command tags that `Mirf.h` encodes as 0. -/
def zeroedPacket (t0 : PACKET_TYPE) (c0 : CMD_TYPE) : mirfPacket :=
  { txAddr := 0, rxAddr := 0, type := t0, counter := 0,
    payload := { req := { cmd := c0, for_sensor := 0, payload := fun _ => 0 },
                 res := { cmd := c0, from_sensor := 0, len := 0, payload := fun _ => 0 },
                 pres := { num_sensors := 0, sensor_type := fun _ => 0 } } }

/-- Lines 228-233: watchdog off, `setup`, first probe conversion started. -/
def mainStart (B : MirfStartup R) (M : MirfDriver R) (d : Device R) : Device R :=
  let d := wdt_disable d
  let d := setup B M d
  DS1820StartConversion d

/-- Lines 235-244: first probe result, interrupts on (`sei` has no state
here), first supply-voltage measurement, `outPacket` cleared. -/
def mainMeasure (t0 : PACKET_TYPE) (c0 : CMD_TYPE) (env : PassEnv) (d : Device R) : Device R :=
  let d := DS1820ReadConversionResult env d
  let d := { d with ADMUX := REF_VCC_INPUT_INTERNAL }
  let d := startAdcConversion env d
  let d := { d with actual_Vcc := vccReading d.ADCW }
  let d := ADC_OFF d
  { d with outPacket := zeroedPacket t0 c0 }

/-- Lines 228-244: `main` up to the loop, with the probe wait of line 234 in
the middle. -/
def mainInit (B : MirfStartup R) (M : MirfDriver R) (t0 : PACKET_TYPE) (c0 : CMD_TYPE)
    (env : PassEnv) (fuel : Nat) (d : Device R) : Outcome R :=
  (DS1820WaitForEndConversion_loop env fuel 0 (mainStart B M d)).andThen fun d =>
    .returned (mainMeasure t0 c0 env d)

/-- Lines 226-475: `main`, start-up followed by passes of the loop. -/
def main (B : MirfStartup R) (M : MirfDriver R) (t0 : PACKET_TYPE) (c0 : CMD_TYPE)
    (envInit : PassEnv) (fuel : Nat) (envs : List PassEnv) (d : Device R) : Outcome R :=
  (mainInit B M t0 c0 envInit fuel d).andThen (runPasses M fuel envs)

/-- Lines 430-444: the transition to power-down mode up to the point where the
CPU is suspended (`enterPowerDown` without the final `sleep_cpu`). -/
def armPowerDown (M : MirfDriver R) (d : Device R) : Device R :=
  let d := { d with longTimer := 0 }
  let d := setTIMSK0 0 d
  let d := { d with SMCR := 4 }
  let d := setWDTCSR (_BV WDCE ||| _BV WDE ||| _BV WDP3 ||| _BV WDP0) d
  let d := setWDTCSR (_BV WDIE ||| _BV WDP3 ||| _BV WDP0) d
  let d := { d with wdt_timer := 0 }
  let d := { d with low_power_mode := 1 }
  let d := Mirf_powerDown M d
  sleep_enable d

/-! ## Reading the trace -/

/-- Events that belong to a change of power mode: the call `Mirf.powerDown` and
the stores to `TIMSK0` and `WDTCSR`. -/
def isModeSwitch : Event → Bool
  | .powerDown => true
  | .writeTIMSK0 _ => true
  | .writeWDTCSR _ => true
  | _ => false

/-- Events that start or collect a measurement: probe conversion start, probe
result read, ADC conversion. -/
def isConversion : Event → Bool
  | .DS1820StartConversion => true
  | .DS1820ReadConversionResult => true
  | .startAdcConversion => true
  | _ => false

/-- The timer-0 compare interrupt is enabled in this value of `TIMSK0`. -/
def tickEnabled (timsk0 : Nat) : Bool :=
  timsk0.testBit OCIE0A

/-- The watchdog interrupt is enabled in this value of `WDTCSR`. -/
def wdtIntEnabled (wdtcsr : Nat) : Bool :=
  wdtcsr.testBit WDIE

/-- Values of (`TIMSK0`, `WDTCSR`) after the stores recorded in a trace, from
the values `t` and `w` before it. -/
def regsAfter (t w : Nat) : List Event → Nat × Nat
  | [] => (t, w)
  | .writeTIMSK0 v :: es => regsAfter v w es
  | .writeWDTCSR v :: es => regsAfter t v es
  | _ :: es => regsAfter t w es

/-- No store recorded in the trace leaves the timer-tick interrupt and the
watchdog interrupt enabled together, starting from register values `t`, `w`. -/
def safeWrites (t w : Nat) : List Event → Bool
  | [] => true
  | .writeTIMSK0 v :: es => !(tickEnabled v && wdtIntEnabled w) && safeWrites v w es
  | .writeWDTCSR v :: es => !(tickEnabled t && wdtIntEnabled v) && safeWrites t v es
  | _ :: es => safeWrites t w es

/-- A step that is no change of power mode: mode flag, cycle counter and the
two interrupt-enable registers are kept, and the events added to the trace are
no mode-switch events. -/
def Quiet (d dNext : Device R) : Prop :=
  dNext.low_power_mode = d.low_power_mode ∧ dNext.wdt_timer = d.wdt_timer ∧
  dNext.TIMSK0 = d.TIMSK0 ∧ dNext.WDTCSR = d.WDTCSR ∧
  ∃ evs, dNext.trace = d.trace ++ evs ∧ ∀ e ∈ evs, isModeSwitch e = false

/-- What holds of the device between the statements of `main`, for reset
register values `t0`, `w0` and the trace since reset: every store so far was
safe, the registers are what the stores left, the timer tick is disabled while
in low-power mode and the watchdog interrupt is disabled outside it. -/
def WriteInv (t0 w0 : Nat) (d : Device R) : Prop :=
  safeWrites t0 w0 d.trace = true ∧ regsAfter t0 w0 d.trace = (d.TIMSK0, d.WDTCSR) ∧
  (d.low_power_mode = 1 → tickEnabled d.TIMSK0 = false) ∧
  (d.low_power_mode ≠ 1 → wdtIntEnabled d.WDTCSR = false)

/-- A start-up part of the driver without state. -/
def quietStartup : MirfStartup Unit where
  init := fun _ => ()
  config := fun _ => ()
  setDevAddr := fun _ _ => ()

/-- A presentation request from the master (address 1) to this node. -/
def presentationRequestPacket : mirfPacket :=
  { zeroPacket with txAddr := 1, rxAddr := DEV_ADDR, type := .PRESENTATION_REQUEST }

/-- The sample device about to leave power-down mode (eighth expiry seen) with
the tick counter at `n`. -/
def sampleWakeDue (n : Nat) : Device Unit :=
  { sampleAsleep with wdt_timer := 8, timerInterruptTriggered := n }

/-- A radio driver without state whose every send fails. -/
def failingDriver : MirfDriver Unit :=
  { quietDriver with sendResult := fun _ => .other 1 }

/-- A pass environment in which the probe is still converting at the first
`n` polls of the pass, each followed by an idle sleep that one timer tick
ends. -/
def sampleEnvSlowProbe (n : Nat) : PassEnv :=
  { sampleEnv with converting := fun k => if k < n then some 1 else none }

/-- A radio driver without state that always has a READ of sensor 0 from the
master waiting. -/
def readyDriver : MirfDriver Unit :=
  { quietDriver with
    inPacketReady := fun _ => true
    readPacket := fun _ => (requestPacket .READ 0 0, ()) }

/-- A device state at reset: globals and registers zero, EEPROM never written,
empty trace. -/
def sampleReset : Device Unit :=
  { inPacket := zeroPacket, outPacket := zeroPacket, pinState := 0,
    internalTempCalib := 0, longTimer := 0, timerInterruptTriggered := 0,
    wdt_timer := 0, low_power_mode := 0, adcVal := 0,
    ds1820Temp := { lsb := 0, msb := 0 }, actual_Vcc := 0,
    SMCR := 0, WDTCSR := 0, TIMSK0 := 0, TIFR0 := 0, ADMUX := 0, ADCSRA := 0,
    ADCW := 0, PRR := 0, eeprom := fun _ => 0xFF, Mirf := (), trace := [] }

/-- Ten pass environments: 301 timer ticks during the idle sleep of the first
pass, then one watchdog expiry per power-down sleep. From `sampleReset` they
take the device through the pass that enters power-down mode, eight passes
asleep and the wake-up pass. -/
def sampleCycleEnvs : List PassEnv :=
  { sampleEnv with timerTicks := 301 } :: List.replicate 9 sampleEnv

/-- The state the wake-up pass leaves when it starts with the tick counter at
255 and the probe is done at once. -/
def sampleWokenFull : Device Unit :=
  (mainLoopPass quietDriver sampleEnv 0 (sampleWakeDue 255)).state

/-- The state the wake-up pass leaves when it starts with the tick counter at 0
and 255 timer ticks go by while it waits for the probe. -/
def sampleWokenSlow : Device Unit :=
  (mainLoopPass quietDriver (sampleEnvSlowProbe 255) 255 (sampleWakeDue 0)).state

/-! ## Trace lemmas -/

theorem sentPackets_append (a b : List Event) :
    sentPackets (a ++ b) = sentPackets a ++ sentPackets b := by
  induction a with
  | nil => rfl
  | cons e es ih => cases e <;> simp [sentPackets, ih]

theorem eepromWrites_append (a b : List Event) :
    eepromWrites (a ++ b) = eepromWrites a ++ eepromWrites b := by
  induction a with
  | nil => rfl
  | cons e es ih => cases e <;> simp [eepromWrites, ih]

theorem internalTempReading_int (adcw calib : Nat) :
    (internalTempReading adcw calib : Int) = ((adcw : Int) - 19 - (calib : Int)) % 256 := by
  unfold internalTempReading
  rw [Int.toNat_of_nonneg (Int.emod_nonneg _ (by norm_num))]
  exact Int.emod_emod_of_dvd _ (by norm_num)

/-- C1. A REQUEST with for_sensor = 0 and cmd = READ makes the dispatcher return
after handing exactly one packet to sendPacket; that packet is a RESPONSE with
from_sensor = 0, cmd = READ, len = 1 and payload[0] = (ADCW - 19 -
internalTempCalib) mod 256, for every device state, ADC count and sender. -/
theorem C1_internal_temp_read (M : MirfDriver R) (env : PassEnv) (fuel : Nat) (d : Device R)
    (htype : d.inPacket.type = .REQUEST)
    (hsensor : d.inPacket.payload.req.for_sensor = 0)
    (hcmd : d.inPacket.payload.req.cmd = .READ) :
    ∃ dOut pkt, dispatch M env fuel d = .returned dOut ∧
      sentPackets dOut.trace = sentPackets d.trace ++ [pkt] ∧
      pkt.type = .RESPONSE ∧ pkt.payload.res.from_sensor = 0 ∧
      pkt.payload.res.cmd = .READ ∧ pkt.payload.res.len = 1 ∧
      (pkt.payload.res.payload 0 : Int)
        = ((env.ADCW : Int) - 19 - (d.internalTempCalib : Int)) % 256 := by
  refine ⟨flushInFifo M (handleSensor0 M env (beginResponse d)),
    (handleSensor0 M env (beginResponse d)).outPacket, ?_, ?_, ?_⟩
  · simp [dispatch, handleRequest, htype, hsensor, Outcome.andThen]
  · simp [flushInFifo, handleSensor0, beginResponse, hcmd, setRes, Mirf_sendPacket,
      Mirf_handleTxLoop, emit, startAdcConversion, sleep_cpu, sleep_enable, ADC_vect, ADC_ON,
      ADC_OFF, sentPackets_append, sentPackets]
    split <;> simp [sentPackets_append, sentPackets]
  · simp [handleSensor0, beginResponse, hcmd, hsensor, setRes, Mirf_sendPacket, emit,
      startAdcConversion, sleep_cpu, sleep_enable, ADC_vect, ADC_ON, ADC_OFF, setByte,
      internalTempReading_int]

/-- Witness for C1: the sample device answering a READ of sensor 0. -/
theorem C1_internal_temp_read_witness :
    (sampleWithRequest .READ 0 0).inPacket.type = .REQUEST ∧
    (sampleWithRequest .READ 0 0).inPacket.payload.req.for_sensor = 0 ∧
    (sampleWithRequest .READ 0 0).inPacket.payload.req.cmd = .READ ∧
    ∃ dOut pkt, dispatch quietDriver sampleEnv 0 (sampleWithRequest .READ 0 0) = .returned dOut ∧
      sentPackets dOut.trace = sentPackets (sampleWithRequest .READ 0 0).trace ++ [pkt] ∧
      pkt.type = .RESPONSE ∧ pkt.payload.res.from_sensor = 0 ∧
      pkt.payload.res.cmd = .READ ∧ pkt.payload.res.len = 1 ∧
      (pkt.payload.res.payload 0 : Int)
        = ((sampleEnv.ADCW : Int) - 19 - ((sampleWithRequest .READ 0 0).internalTempCalib : Int))
            % 256 :=
  ⟨rfl, rfl, rfl,
    C1_internal_temp_read quietDriver sampleEnv 0 (sampleWithRequest .READ 0 0) rfl rfl rfl⟩

/-- C2. A PRESENTATION_REQUEST makes the dispatcher return after handing exactly
one packet to sendPacket: a PRESENTATION_RESPONSE with num_sensors = NUM_SENSORS
= 4 and sensor types [3, 0, 132, 6], 132 being 4 plus the low-power flag 128. -/
theorem C2_presentation_response (M : MirfDriver R) (env : PassEnv) (fuel : Nat)
    (d : Device R) (htype : d.inPacket.type = .PRESENTATION_REQUEST) :
    ∃ dOut pkt, dispatch M env fuel d = .returned dOut ∧
      sentPackets dOut.trace = sentPackets d.trace ++ [pkt] ∧
      pkt.type = .PRESENTATION_RESPONSE ∧
      pkt.payload.pres.num_sensors = NUM_SENSORS ∧ NUM_SENSORS = 4 ∧
      pkt.payload.pres.sensor_type 0 = SENSOR_0_TYPE ∧ SENSOR_0_TYPE = 3 ∧
      pkt.payload.pres.sensor_type 1 = SENSOR_1_TYPE ∧ SENSOR_1_TYPE = 0 ∧
      pkt.payload.pres.sensor_type 2 = SENSOR_2_TYPE ∧
      SENSOR_2_TYPE = 4 + LOW_POWER_SENSOR_TYPE_FLAG ∧ SENSOR_2_TYPE = 132 ∧
      pkt.payload.pres.sensor_type 3 = SENSOR_3_TYPE ∧ SENSOR_3_TYPE = 6 := by
  refine ⟨flushInFifo M (handlePresentationRequest M d),
    (handlePresentationRequest M d).outPacket, ?_, ?_, ?_⟩
  · simp [dispatch, htype, Outcome.andThen]
  · simp [flushInFifo, handlePresentationRequest, setPres, Mirf_sendPacket,
      Mirf_handleTxLoop, emit, sentPackets_append, sentPackets]
    split <;> simp [sentPackets_append, sentPackets]
  · simp [handlePresentationRequest, setPres, Mirf_sendPacket, emit, setByte, NUM_SENSORS,
      SENSOR_0_TYPE, SENSOR_1_TYPE, SENSOR_2_TYPE, SENSOR_3_TYPE, LOW_POWER_SENSOR_TYPE_FLAG]

/-- Witness for C2: the sample device answering a presentation request. -/
theorem C2_presentation_response_witness :
    ({ sampleDevice with inPacket := { zeroPacket with type := .PRESENTATION_REQUEST } } :
        Device Unit).inPacket.type = .PRESENTATION_REQUEST ∧
    ∃ dOut pkt, dispatch quietDriver sampleEnv 0
        { sampleDevice with inPacket := { zeroPacket with type := .PRESENTATION_REQUEST } }
          = .returned dOut ∧
      sentPackets dOut.trace = sentPackets ({ sampleDevice with
          inPacket := { zeroPacket with type := .PRESENTATION_REQUEST } } : Device Unit).trace
            ++ [pkt] ∧
      pkt.type = .PRESENTATION_RESPONSE ∧
      pkt.payload.pres.num_sensors = NUM_SENSORS ∧ NUM_SENSORS = 4 ∧
      pkt.payload.pres.sensor_type 0 = SENSOR_0_TYPE ∧ SENSOR_0_TYPE = 3 ∧
      pkt.payload.pres.sensor_type 1 = SENSOR_1_TYPE ∧ SENSOR_1_TYPE = 0 ∧
      pkt.payload.pres.sensor_type 2 = SENSOR_2_TYPE ∧
      SENSOR_2_TYPE = 4 + LOW_POWER_SENSOR_TYPE_FLAG ∧ SENSOR_2_TYPE = 132 ∧
      pkt.payload.pres.sensor_type 3 = SENSOR_3_TYPE ∧ SENSOR_3_TYPE = 6 :=
  ⟨rfl, C2_presentation_response quietDriver sampleEnv 0
    { sampleDevice with inPacket := { zeroPacket with type := .PRESENTATION_REQUEST } } rfl⟩

/-- C3. A REQUEST whose for_sensor is 4 or more, whatever its command and
payload, makes the dispatcher return with no call of sendPacket, no EEPROM
write, and pinState, internalTempCalib, ds1820Temp, actual_Vcc, longTimer,
low_power_mode and wdt_timer unchanged. -/
theorem C3_out_of_range_sensor (M : MirfDriver R) (env : PassEnv) (fuel : Nat) (d : Device R)
    (htype : d.inPacket.type = .REQUEST)
    (hsensor : NUM_SENSORS ≤ d.inPacket.payload.req.for_sensor) :
    ∃ dOut, dispatch M env fuel d = .returned dOut ∧
      sentPackets dOut.trace = sentPackets d.trace ∧
      eepromWrites dOut.trace = eepromWrites d.trace ∧
      dOut.eeprom = d.eeprom ∧
      dOut.pinState = d.pinState ∧
      dOut.internalTempCalib = d.internalTempCalib ∧
      dOut.ds1820Temp = d.ds1820Temp ∧
      dOut.actual_Vcc = d.actual_Vcc ∧
      dOut.longTimer = d.longTimer ∧
      dOut.low_power_mode = d.low_power_mode ∧
      dOut.wdt_timer = d.wdt_timer := by
  have h0 : d.inPacket.payload.req.for_sensor ≠ 0 := by unfold NUM_SENSORS at hsensor; omega
  have h1 : d.inPacket.payload.req.for_sensor ≠ 1 := by unfold NUM_SENSORS at hsensor; omega
  have h2 : d.inPacket.payload.req.for_sensor ≠ 2 := by unfold NUM_SENSORS at hsensor; omega
  have h3 : d.inPacket.payload.req.for_sensor ≠ 3 := by unfold NUM_SENSORS at hsensor; omega
  refine ⟨flushInFifo M (beginResponse d), ?_, ?_⟩
  · simp [dispatch, handleRequest, htype, h0, h1, h2, h3, Outcome.andThen]
  · simp only [flushInFifo, beginResponse, setRes, Mirf_handleTxLoop, emit]
    split <;> simp [sentPackets_append, sentPackets, eepromWrites_append, eepromWrites]

/-- Witness for C3: a READ addressed to sensor 4 of the sample device. -/
theorem C3_out_of_range_sensor_witness :
    (sampleWithRequest .READ 4 0).inPacket.type = .REQUEST ∧
    NUM_SENSORS ≤ (sampleWithRequest .READ 4 0).inPacket.payload.req.for_sensor ∧
    ∃ dOut, dispatch quietDriver sampleEnv 0 (sampleWithRequest .READ 4 0) = .returned dOut ∧
      sentPackets dOut.trace = sentPackets (sampleWithRequest .READ 4 0).trace ∧
      eepromWrites dOut.trace = eepromWrites (sampleWithRequest .READ 4 0).trace ∧
      dOut.eeprom = (sampleWithRequest .READ 4 0).eeprom ∧
      dOut.pinState = (sampleWithRequest .READ 4 0).pinState ∧
      dOut.internalTempCalib = (sampleWithRequest .READ 4 0).internalTempCalib ∧
      dOut.ds1820Temp = (sampleWithRequest .READ 4 0).ds1820Temp ∧
      dOut.actual_Vcc = (sampleWithRequest .READ 4 0).actual_Vcc ∧
      dOut.longTimer = (sampleWithRequest .READ 4 0).longTimer ∧
      dOut.low_power_mode = (sampleWithRequest .READ 4 0).low_power_mode ∧
      dOut.wdt_timer = (sampleWithRequest .READ 4 0).wdt_timer :=
  ⟨rfl, by decide,
    C3_out_of_range_sensor quietDriver sampleEnv 0 (sampleWithRequest .READ 4 0) rfl
      (by decide)⟩

/-- The busy wait of line 398 leaves at once or never: its body changes nothing. -/
theorem waitSendResult_eq (M : MirfDriver R) (fuel : Nat) (d : Device R) :
    waitSendResult M fuel d
      = if M.sendResult d.Mirf = .PROCESSING then .spinning d else .returned d := by
  induction fuel with
  | zero => unfold waitSendResult; split <;> rfl
  | succ n ih => unfold waitSendResult; split <;> simp_all

/-- The flush of lines 422-425 hands no packet to sendPacket. -/
theorem flushInFifo_sent (M : MirfDriver R) (d : Device R) :
    sentPackets (flushInFifo M d).trace = sentPackets d.trace := by
  unfold flushInFifo
  split <;> simp [Mirf_handleTxLoop, emit, sentPackets_append, sentPackets]

/-- The flush of lines 422-425 writes nothing to the EEPROM. -/
theorem flushInFifo_eepromWrites (M : MirfDriver R) (d : Device R) :
    eepromWrites (flushInFifo M d).trace = eepromWrites d.trace := by
  unfold flushInFifo
  split <;> simp [Mirf_handleTxLoop, emit, eepromWrites_append, eepromWrites]

/-- The flush of lines 422-425 only touches the driver state and the trace. -/
theorem flushInFifo_frame (M : MirfDriver R) (d : Device R) :
    (flushInFifo M d).outPacket = d.outPacket ∧
    (flushInFifo M d).pinState = d.pinState ∧
    (flushInFifo M d).internalTempCalib = d.internalTempCalib ∧
    (flushInFifo M d).ds1820Temp = d.ds1820Temp ∧
    (flushInFifo M d).actual_Vcc = d.actual_Vcc ∧
    (flushInFifo M d).longTimer = d.longTimer ∧
    (flushInFifo M d).low_power_mode = d.low_power_mode ∧
    (flushInFifo M d).wdt_timer = d.wdt_timer ∧
    (flushInFifo M d).eeprom = d.eeprom := by
  unfold flushInFifo
  split <;> simp [Mirf_handleTxLoop, emit]

/-- Sensor 2 in closed form: stuck in the busy wait when the send result is
PROCESSING after `handleTxLoop`, else returned, with `longTimer` credited on
SUCCESS. -/
theorem handleSensor2_eq (M : MirfDriver R) (fuel : Nat) (d : Device R) :
    handleSensor2 M fuel d
      = if M.sendResult (sendSensor2 M d).Mirf = .PROCESSING then .spinning (sendSensor2 M d)
        else if M.sendResult (sendSensor2 M d).Mirf = .SUCCESS then
          .returned { sendSensor2 M d with
            longTimer := ((sendSensor2 M d).longTimer + TIMER_3_SEC_PERIOD) % 65536 }
        else .returned (sendSensor2 M d) := by
  unfold handleSensor2
  simp only [waitSendResult_eq]
  split <;> simp [Outcome.andThen]

/-- Counterexample to C4 as stated: a WRITE addressed to sensor 2 is answered
with a RESPONSE (the sensor-2 branch does not look at the command). -/
theorem C4_write_to_sensor2_is_answered :
    (sampleWithRequest .WRITE 2 0).inPacket.type = .REQUEST ∧
    (sampleWithRequest .WRITE 2 0).inPacket.payload.req.for_sensor = 2 ∧
    (sampleWithRequest .WRITE 2 0).inPacket.payload.req.cmd = .WRITE ∧
    sentPackets (sampleWithRequest .WRITE 2 0).trace = [] ∧
    ∃ dOut pkt, dispatch quietDriver sampleEnv 0 (sampleWithRequest .WRITE 2 0) = .returned dOut ∧
      sentPackets dOut.trace = [pkt] ∧ pkt.type = .RESPONSE ∧ pkt.payload.res.cmd = .WRITE :=
  ⟨rfl, rfl, rfl, rfl, _, _, rfl, rfl, rfl, rfl⟩

/-- C4 (amended). For sensors 0 and 1, a REQUEST whose command is WRITE or
CALIBRATION_WRITE makes the dispatcher return without calling sendPacket, for
every device state and payload. -/
theorem C4_write_family_no_response (M : MirfDriver R) (env : PassEnv) (fuel : Nat)
    (d : Device R) (htype : d.inPacket.type = .REQUEST)
    (hsensor : d.inPacket.payload.req.for_sensor = 0 ∨ d.inPacket.payload.req.for_sensor = 1)
    (hcmd : d.inPacket.payload.req.cmd = .WRITE ∨
      d.inPacket.payload.req.cmd = .CALIBRATION_WRITE) :
    ∃ dOut, dispatch M env fuel d = .returned dOut ∧
      sentPackets dOut.trace = sentPackets d.trace := by
  rcases hsensor with hs | hs
  · refine ⟨flushInFifo M (handleSensor0 M env (beginResponse d)), ?_, ?_⟩
    · simp [dispatch, handleRequest, htype, hs, Outcome.andThen]
    · rw [flushInFifo_sent]
      rcases hcmd with hc | hc
      · simp [handleSensor0, beginResponse, setRes, hc]
      · simp only [handleSensor0, beginResponse, setRes, hc, eeprom_write_byte, emit,
          reduceCtorEq, if_false, if_true]
        split <;> simp [sentPackets_append, sentPackets]
  · refine ⟨flushInFifo M (handleSensor1 M (beginResponse d)), ?_, ?_⟩
    · simp [dispatch, handleRequest, htype, hs, Outcome.andThen]
    · rw [flushInFifo_sent]
      rcases hcmd with hc | hc
      · simp only [handleSensor1, beginResponse, setRes, hc, if_true]
        split <;> simp
      · simp [handleSensor1, beginResponse, setRes, hc]

/-- Witness for C4 (amended): a WRITE to sensor 1 of the sample device. -/
theorem C4_write_family_no_response_witness :
    (sampleWithRequest .WRITE 1 7).inPacket.type = .REQUEST ∧
    ((sampleWithRequest .WRITE 1 7).inPacket.payload.req.for_sensor = 0 ∨
      (sampleWithRequest .WRITE 1 7).inPacket.payload.req.for_sensor = 1) ∧
    ((sampleWithRequest .WRITE 1 7).inPacket.payload.req.cmd = .WRITE ∨
      (sampleWithRequest .WRITE 1 7).inPacket.payload.req.cmd = .CALIBRATION_WRITE) ∧
    ∃ dOut, dispatch quietDriver sampleEnv 0 (sampleWithRequest .WRITE 1 7) = .returned dOut ∧
      sentPackets dOut.trace = sentPackets (sampleWithRequest .WRITE 1 7).trace :=
  ⟨rfl, Or.inr rfl, Or.inl rfl,
    C4_write_family_no_response quietDriver sampleEnv 0 (sampleWithRequest .WRITE 1 7) rfl
      (Or.inr rfl) (Or.inl rfl)⟩

/-- C5. A READ for a sensor index in 0..3, or a CALIBRATION_READ for sensor 0,
makes the dispatcher call sendPacket exactly once, with a RESPONSE that echoes
the request's cmd and for_sensor and whose len is 1 for sensors 0 and 1, 3 for
sensor 2 and 2 for sensor 3. The dispatcher then returns, for sensor 2 provided
the send result it polls after handleTxLoop is not PROCESSING. -/
theorem C5_read_family_one_response (M : MirfDriver R) (env : PassEnv) (fuel : Nat)
    (d : Device R) (htype : d.inPacket.type = .REQUEST)
    (hreq : (d.inPacket.payload.req.cmd = .READ ∧ d.inPacket.payload.req.for_sensor < 4) ∨
      (d.inPacket.payload.req.cmd = .CALIBRATION_READ ∧ d.inPacket.payload.req.for_sensor = 0)) :
    ∃ pkt, sentPackets (dispatch M env fuel d).state.trace = sentPackets d.trace ++ [pkt] ∧
      pkt.type = .RESPONSE ∧
      pkt.payload.res.cmd = d.inPacket.payload.req.cmd ∧
      pkt.payload.res.from_sensor = d.inPacket.payload.req.for_sensor ∧
      (d.inPacket.payload.req.for_sensor ≤ 1 → pkt.payload.res.len = 1) ∧
      (d.inPacket.payload.req.for_sensor = 2 → pkt.payload.res.len = 3) ∧
      (d.inPacket.payload.req.for_sensor = 3 → pkt.payload.res.len = 2) ∧
      ((d.inPacket.payload.req.for_sensor = 2 →
          M.sendResult (M.handleTxLoop (M.sendPacket d.Mirf pkt)) ≠ .PROCESSING) →
        ∃ dOut, dispatch M env fuel d = .returned dOut) := by
  have hsens : d.inPacket.payload.req.for_sensor = 0 ∨ d.inPacket.payload.req.for_sensor = 1 ∨
      d.inPacket.payload.req.for_sensor = 2 ∨ d.inPacket.payload.req.for_sensor = 3 := by
    rcases hreq with ⟨_, h⟩ | ⟨_, h⟩ <;> omega
  rcases hsens with hs | hs | hs | hs
  · -- sensor 0: READ or CALIBRATION_READ
    have hd : dispatch M env fuel d
        = .returned (flushInFifo M (handleSensor0 M env (beginResponse d))) := by
      simp [dispatch, handleRequest, htype, hs, Outcome.andThen]
    refine ⟨(handleSensor0 M env (beginResponse d)).outPacket, ?_, ?_⟩
    · rw [hd, Outcome.state, flushInFifo_sent]
      rcases hreq with ⟨hc, _⟩ | ⟨hc, _⟩ <;>
        simp [handleSensor0, beginResponse, hc, setRes, Mirf_sendPacket, emit,
          startAdcConversion, sleep_cpu, sleep_enable, ADC_vect, ADC_ON, ADC_OFF,
          sentPackets_append, sentPackets]
    · rw [hd]
      rcases hreq with ⟨hc, _⟩ | ⟨hc, _⟩ <;>
        simp [handleSensor0, beginResponse, hc, hs, setRes, Mirf_sendPacket, emit,
          startAdcConversion, sleep_cpu, sleep_enable, ADC_vect, ADC_ON, ADC_OFF]
  · -- sensor 1: READ
    have hc : d.inPacket.payload.req.cmd = .READ := by
      rcases hreq with ⟨h, _⟩ | ⟨_, h⟩
      · exact h
      · omega
    have hd : dispatch M env fuel d
        = .returned (flushInFifo M (handleSensor1 M (beginResponse d))) := by
      simp [dispatch, handleRequest, htype, hs, Outcome.andThen]
    refine ⟨(handleSensor1 M (beginResponse d)).outPacket, ?_, ?_⟩
    · rw [hd, Outcome.state, flushInFifo_sent]
      simp [handleSensor1, beginResponse, hc, setRes, Mirf_sendPacket, emit,
        sentPackets_append, sentPackets]
    · rw [hd]
      simp [handleSensor1, beginResponse, hc, hs, setRes, Mirf_sendPacket, emit]
  · -- sensor 2: any command
    have hd : dispatch M env fuel d
        = (handleSensor2 M fuel (beginResponse d)).andThen
            fun d => .returned (flushInFifo M d) := by
      simp [dispatch, handleRequest, htype, hs]
    have hpkt : sentPackets (sendSensor2 M (beginResponse d)).trace
        = sentPackets d.trace ++ [(sendSensor2 M (beginResponse d)).outPacket] := by
      simp [sendSensor2, beginResponse, setRes, Mirf_sendPacket, Mirf_handleTxLoop, emit,
        sentPackets_append, sentPackets]
    have hmirf : (sendSensor2 M (beginResponse d)).Mirf
        = M.handleTxLoop (M.sendPacket d.Mirf (sendSensor2 M (beginResponse d)).outPacket) := by
      simp [sendSensor2, beginResponse, setRes, Mirf_sendPacket, Mirf_handleTxLoop, emit]
    refine ⟨(sendSensor2 M (beginResponse d)).outPacket, ?_, ?_⟩
    · rw [hd, handleSensor2_eq]
      split
      · simpa [Outcome.andThen, Outcome.state] using hpkt
      · split <;> simpa [Outcome.andThen, Outcome.state, flushInFifo_sent] using hpkt
    · refine ⟨by simp [sendSensor2, beginResponse, setRes, Mirf_sendPacket, Mirf_handleTxLoop, emit],
        by simp [sendSensor2, beginResponse, setRes, Mirf_sendPacket, Mirf_handleTxLoop, emit],
        by simp [sendSensor2, beginResponse, setRes, Mirf_sendPacket, Mirf_handleTxLoop, emit],
        by omega,
        by simp [sendSensor2, beginResponse, setRes, Mirf_sendPacket, Mirf_handleTxLoop, emit],
        by omega, ?_⟩
      intro hres
      have hres2 := hres hs
      rw [← hmirf] at hres2
      rw [hd, handleSensor2_eq, if_neg hres2]
      split <;> simp [Outcome.andThen]
  · -- sensor 3: any command
    have hd : dispatch M env fuel d
        = .returned (flushInFifo M (handleSensor3 M (beginResponse d))) := by
      simp [dispatch, handleRequest, htype, hs, Outcome.andThen]
    refine ⟨(handleSensor3 M (beginResponse d)).outPacket, ?_, ?_⟩
    · rw [hd, Outcome.state, flushInFifo_sent]
      simp [handleSensor3, beginResponse, setRes, Mirf_sendPacket, emit,
        sentPackets_append, sentPackets]
    · rw [hd]
      simp [handleSensor3, beginResponse, hs, setRes, Mirf_sendPacket, emit]

/-- Witness for C5: the sample device answering a READ of sensor 2. -/
theorem C5_read_family_one_response_witness :
    (sampleWithRequest .READ 2 0).inPacket.type = .REQUEST ∧
    (((sampleWithRequest .READ 2 0).inPacket.payload.req.cmd = .READ ∧
        (sampleWithRequest .READ 2 0).inPacket.payload.req.for_sensor < 4) ∨
      ((sampleWithRequest .READ 2 0).inPacket.payload.req.cmd = .CALIBRATION_READ ∧
        (sampleWithRequest .READ 2 0).inPacket.payload.req.for_sensor = 0)) ∧
    ∃ pkt, sentPackets (dispatch quietDriver sampleEnv 0 (sampleWithRequest .READ 2 0)).state.trace
        = sentPackets (sampleWithRequest .READ 2 0).trace ++ [pkt] ∧
      pkt.type = .RESPONSE ∧
      pkt.payload.res.cmd = (sampleWithRequest .READ 2 0).inPacket.payload.req.cmd ∧
      pkt.payload.res.from_sensor = (sampleWithRequest .READ 2 0).inPacket.payload.req.for_sensor ∧
      ((sampleWithRequest .READ 2 0).inPacket.payload.req.for_sensor ≤ 1 →
        pkt.payload.res.len = 1) ∧
      ((sampleWithRequest .READ 2 0).inPacket.payload.req.for_sensor = 2 →
        pkt.payload.res.len = 3) ∧
      ((sampleWithRequest .READ 2 0).inPacket.payload.req.for_sensor = 3 →
        pkt.payload.res.len = 2) ∧
      (((sampleWithRequest .READ 2 0).inPacket.payload.req.for_sensor = 2 →
          quietDriver.sendResult (quietDriver.handleTxLoop
            (quietDriver.sendPacket (sampleWithRequest .READ 2 0).Mirf pkt)) ≠ .PROCESSING) →
        ∃ dOut, dispatch quietDriver sampleEnv 0 (sampleWithRequest .READ 2 0)
          = .returned dOut) :=
  ⟨rfl, Or.inl ⟨rfl, by decide⟩,
    C5_read_family_one_response quietDriver sampleEnv 0 (sampleWithRequest .READ 2 0) rfl
      (Or.inl ⟨rfl, by decide⟩)⟩

/-- C6. Handling REQUEST{for_sensor=0, cmd=CALIBRATION_WRITE, payload[0]=v} with
cached calibration c performs no eeprom_write_byte call when v = c and exactly
one, to SENSOR_0_CALIB_ADDR with value v, when v differs from c; either way the
cached calibration is v afterwards. -/
theorem C6_calibration_write (M : MirfDriver R) (env : PassEnv) (fuel : Nat) (d : Device R)
    (htype : d.inPacket.type = .REQUEST)
    (hsensor : d.inPacket.payload.req.for_sensor = 0)
    (hcmd : d.inPacket.payload.req.cmd = .CALIBRATION_WRITE) :
    ∃ dOut, dispatch M env fuel d = .returned dOut ∧
      eepromWrites dOut.trace = eepromWrites d.trace ++
        (if d.inPacket.payload.req.payload 0 = d.internalTempCalib then []
         else [(SENSOR_0_CALIB_ADDR, d.inPacket.payload.req.payload 0)]) ∧
      dOut.internalTempCalib = d.inPacket.payload.req.payload 0 := by
  refine ⟨flushInFifo M (handleSensor0 M env (beginResponse d)), ?_, ?_, ?_⟩
  · simp [dispatch, handleRequest, htype, hsensor, Outcome.andThen]
  · rw [flushInFifo_eepromWrites]
    by_cases hv : d.inPacket.payload.req.payload 0 = d.internalTempCalib
    · simp [handleSensor0, beginResponse, setRes, hcmd, hv]
    · have hv2 : ¬ d.internalTempCalib = d.inPacket.payload.req.payload 0 := fun h => hv h.symm
      simp [handleSensor0, beginResponse, setRes, hcmd, hv, hv2, eeprom_write_byte, emit,
        eepromWrites_append, eepromWrites]
  · rw [(flushInFifo_frame M _).2.2.1]
    by_cases hv : d.inPacket.payload.req.payload 0 = d.internalTempCalib
    · simp [handleSensor0, beginResponse, setRes, hcmd, hv]
    · have hv2 : ¬ d.internalTempCalib = d.inPacket.payload.req.payload 0 := fun h => hv h.symm
      simp [handleSensor0, beginResponse, setRes, hcmd, hv, hv2, eeprom_write_byte, emit]

/-- Witness for C6: writing calibration 130 over the cached 128. -/
theorem C6_calibration_write_witness :
    (sampleWithRequest .CALIBRATION_WRITE 0 130).inPacket.type = .REQUEST ∧
    (sampleWithRequest .CALIBRATION_WRITE 0 130).inPacket.payload.req.for_sensor = 0 ∧
    (sampleWithRequest .CALIBRATION_WRITE 0 130).inPacket.payload.req.cmd = .CALIBRATION_WRITE ∧
    ∃ dOut, dispatch quietDriver sampleEnv 0 (sampleWithRequest .CALIBRATION_WRITE 0 130)
        = .returned dOut ∧
      eepromWrites dOut.trace = eepromWrites (sampleWithRequest .CALIBRATION_WRITE 0 130).trace ++
        (if (sampleWithRequest .CALIBRATION_WRITE 0 130).inPacket.payload.req.payload 0
            = (sampleWithRequest .CALIBRATION_WRITE 0 130).internalTempCalib then []
         else [(SENSOR_0_CALIB_ADDR,
            (sampleWithRequest .CALIBRATION_WRITE 0 130).inPacket.payload.req.payload 0)]) ∧
      dOut.internalTempCalib
        = (sampleWithRequest .CALIBRATION_WRITE 0 130).inPacket.payload.req.payload 0 :=
  ⟨rfl, rfl, rfl,
    C6_calibration_write quietDriver sampleEnv 0 (sampleWithRequest .CALIBRATION_WRITE 0 130)
      rfl rfl rfl⟩

/-- C7. Handling REQUEST{for_sensor=1, cmd=WRITE, payload[0]=v} returns, and a
REQUEST{for_sensor=1, cmd=READ} handled afterwards, in any state in which
pinState is still what the write left, is answered with exactly one RESPONSE
whose payload[0] is 0 when v = 0 and 1 when v is nonzero. -/
theorem C7_digital_output_round_trip (M : MirfDriver R) (env1 env2 : PassEnv)
    (fuel1 fuel2 : Nat) (d dNext : Device R)
    (htype : d.inPacket.type = .REQUEST)
    (hsensor : d.inPacket.payload.req.for_sensor = 1)
    (hcmd : d.inPacket.payload.req.cmd = .WRITE)
    (hkeep : dNext.pinState = (dispatch M env1 fuel1 d).state.pinState)
    (htype2 : dNext.inPacket.type = .REQUEST)
    (hsensor2 : dNext.inPacket.payload.req.for_sensor = 1)
    (hcmd2 : dNext.inPacket.payload.req.cmd = .READ) :
    (∃ d1, dispatch M env1 fuel1 d = .returned d1) ∧
    ∃ d2 pkt, dispatch M env2 fuel2 dNext = .returned d2 ∧
      sentPackets d2.trace = sentPackets dNext.trace ++ [pkt] ∧
      pkt.type = .RESPONSE ∧
      pkt.payload.res.payload 0 = if d.inPacket.payload.req.payload 0 = 0 then 0 else 1 := by
  have hd1 : dispatch M env1 fuel1 d
      = .returned (flushInFifo M (handleSensor1 M (beginResponse d))) := by
    simp [dispatch, handleRequest, htype, hsensor, Outcome.andThen]
  have hpin : dNext.pinState = if d.inPacket.payload.req.payload 0 = 0 then 0 else 1 := by
    rw [hkeep, hd1, Outcome.state, (flushInFifo_frame M _).2.1]
    by_cases hv : d.inPacket.payload.req.payload 0 = 0
    · simp [handleSensor1, beginResponse, setRes, hcmd, hv]
    · have hpos : 0 < d.inPacket.payload.req.payload 0 := Nat.pos_of_ne_zero hv
      simp [handleSensor1, beginResponse, setRes, hcmd, hv, hpos]
  refine ⟨⟨_, hd1⟩, flushInFifo M (handleSensor1 M (beginResponse dNext)),
    (handleSensor1 M (beginResponse dNext)).outPacket, ?_, ?_, ?_, ?_⟩
  · simp [dispatch, handleRequest, htype2, hsensor2, Outcome.andThen]
  · rw [flushInFifo_sent]
    simp [handleSensor1, beginResponse, setRes, hcmd2, Mirf_sendPacket, emit,
      sentPackets_append, sentPackets]
  · simp [handleSensor1, beginResponse, setRes, hcmd2, Mirf_sendPacket, emit]
  · rw [← hpin]
    simp [handleSensor1, beginResponse, setRes, hcmd2, Mirf_sendPacket, emit, setByte]

/-- Witness for C7: WRITE 5 to sensor 1, then READ, on the sample device. -/
theorem C7_digital_output_round_trip_witness :
    (sampleWithRequest .WRITE 1 5).inPacket.type = .REQUEST ∧
    (sampleWithRequest .WRITE 1 5).inPacket.payload.req.for_sensor = 1 ∧
    (sampleWithRequest .WRITE 1 5).inPacket.payload.req.cmd = .WRITE ∧
    sampleAfterWrite.pinState
      = (dispatch quietDriver sampleEnv 0 (sampleWithRequest .WRITE 1 5)).state.pinState ∧
    sampleAfterWrite.inPacket.type = .REQUEST ∧
    sampleAfterWrite.inPacket.payload.req.for_sensor = 1 ∧
    sampleAfterWrite.inPacket.payload.req.cmd = .READ ∧
    (∃ d1, dispatch quietDriver sampleEnv 0 (sampleWithRequest .WRITE 1 5) = .returned d1) ∧
    ∃ d2 pkt, dispatch quietDriver sampleEnv 0 sampleAfterWrite = .returned d2 ∧
      sentPackets d2.trace = sentPackets sampleAfterWrite.trace ++ [pkt] ∧
      pkt.type = .RESPONSE ∧
      pkt.payload.res.payload 0
        = if (sampleWithRequest .WRITE 1 5).inPacket.payload.req.payload 0 = 0 then 0 else 1 :=
  ⟨rfl, rfl, rfl, rfl, rfl, rfl, rfl,
    C7_digital_output_round_trip quietDriver sampleEnv sampleEnv 0 0
      (sampleWithRequest .WRITE 1 5) sampleAfterWrite rfl rfl rfl rfl rfl rfl rfl⟩

/-- Counterexample to C8 as stated: with ADC count 19, raising the calibration
from 0 to 1 takes the reported byte from 0 to 255, not to 0 - 1. -/
theorem C8_reading_wraps :
    0 + 1 ≤ 255 ∧
    (∃ d0 p0 d1 p1,
      dispatch quietDriver (sampleEnvWithAdc 19) 0 (sampleCalibrated 0) = .returned d0 ∧
      sentPackets d0.trace = [p0] ∧
      dispatch quietDriver (sampleEnvWithAdc 19) 0 (sampleCalibrated (0 + 1)) = .returned d1 ∧
      sentPackets d1.trace = [p1] ∧
      p0.payload.res.payload 0 = internalTempReading 19 0 ∧
      p1.payload.res.payload 0 = internalTempReading 19 (0 + 1)) ∧
    internalTempReading 19 0 = 0 ∧ internalTempReading 19 (0 + 1) = 255 ∧
    ¬ ((internalTempReading 19 (0 + 1) : Int) = (internalTempReading 19 0 : Int) - 1) := by
  refine ⟨by decide, ⟨_, _, _, _, rfl, rfl, rfl, rfl, rfl, rfl⟩, by decide, by decide,
    by decide⟩

/-- C8 (amended). For every ADC count, calibration byte c and Δ with c + Δ in
byte range, the reading reported with calibration c + Δ equals the reading
reported with calibration c minus Δ, reduced modulo 256; the two are equal
without reduction whenever Δ does not exceed the reading reported with c. -/
theorem C8_calibration_offset_linear (adcw c delta : Nat) (hrange : c + delta ≤ 255) :
    (internalTempReading adcw (c + delta) : Int)
        = ((internalTempReading adcw c : Int) - (delta : Int)) % 256 ∧
    (delta ≤ internalTempReading adcw c →
      internalTempReading adcw (c + delta) = internalTempReading adcw c - delta) := by
  have h1 := internalTempReading_int adcw (c + delta)
  have h2 := internalTempReading_int adcw c
  have hmod : (internalTempReading adcw (c + delta) : Int)
      = ((internalTempReading adcw c : Int) - (delta : Int)) % 256 := by
    rw [h1, h2]
    push_cast
    omega
  refine ⟨hmod, fun hle => ?_⟩
  have hlt : (internalTempReading adcw c : Int) < 256 := by
    rw [h2]; exact Int.emod_lt_of_pos _ (by norm_num)
  omega

/-- Witness for C8 (amended): ADC count 350, calibration 128 raised by 2. -/
theorem C8_calibration_offset_linear_witness :
    128 + 2 ≤ 255 ∧
    (internalTempReading 350 (128 + 2) : Int)
        = ((internalTempReading 350 128 : Int) - ((2 : Nat) : Int)) % 256 ∧
    (2 ≤ internalTempReading 350 128 →
      internalTempReading 350 (128 + 2) = internalTempReading 350 128 - 2) :=
  ⟨by decide, C8_calibration_offset_linear 350 128 2 (by decide)⟩

/-! ## The main loop in low-power mode -/

/-- Timer ticks leave the trace and the low-power bookkeeping alone. -/
theorem fire_TIMER0_frame (n : Nat) (d : Device R) :
    (fire TIMER0_COMPA_vect n d).trace = d.trace ∧
    (fire TIMER0_COMPA_vect n d).low_power_mode = d.low_power_mode ∧
    (fire TIMER0_COMPA_vect n d).wdt_timer = d.wdt_timer := by
  induction n generalizing d with
  | zero => simp [fire]
  | succ k ih =>
    have h := ih (TIMER0_COMPA_vect d)
    simpa [fire, TIMER0_COMPA_vect] using h

/-- Watchdog expiries leave the trace and the mode flag alone. -/
theorem fire_WDT_frame (n : Nat) (d : Device R) :
    (fire WDT_vect n d).trace = d.trace ∧
    (fire WDT_vect n d).low_power_mode = d.low_power_mode := by
  induction n generalizing d with
  | zero => simp [fire]
  | succ k ih =>
    have h := ih (WDT_vect d)
    simpa [fire, WDT_vect] using h

/-- An idle sleep ended by timer ticks adds one `sleep_cpu` event and keeps the
low-power bookkeeping. -/
theorem sleep_tick_frame (t : Nat) (d : Device R) :
    (sleep_cpu (fire TIMER0_COMPA_vect t) d).trace = d.trace ++ [Event.sleep_cpu] ∧
    (sleep_cpu (fire TIMER0_COMPA_vect t) d).low_power_mode = d.low_power_mode ∧
    (sleep_cpu (fire TIMER0_COMPA_vect t) d).wdt_timer = d.wdt_timer := by
  have hf := fire_TIMER0_frame t (emit Event.sleep_cpu d)
  unfold sleep_cpu
  rw [hf.1, hf.2.1, hf.2.2]
  simp [emit]

/-- The probe wait of lines 128-138 only adds `sleep_cpu` events to the trace
and keeps the low-power bookkeeping, whether it returns or not. -/
theorem DS1820WaitForEndConversion_sleep_frame (env : PassEnv) (fuel poll : Nat)
    (d : Device R) :
    (∃ n, (DS1820WaitForEndConversion_sleep env fuel poll d).state.trace
        = d.trace ++ List.replicate n Event.sleep_cpu) ∧
    (DS1820WaitForEndConversion_sleep env fuel poll d).state.low_power_mode
        = d.low_power_mode ∧
    (DS1820WaitForEndConversion_sleep env fuel poll d).state.wdt_timer = d.wdt_timer := by
  induction fuel generalizing poll d with
  | zero =>
    unfold DS1820WaitForEndConversion_sleep
    cases env.converting poll with
    | none => exact ⟨⟨0, by simp [Outcome.state, sleep_disable]⟩,
        by simp [Outcome.state, sleep_disable], by simp [Outcome.state, sleep_disable]⟩
    | some t => exact ⟨⟨0, by simp [Outcome.state]⟩, by simp [Outcome.state],
        by simp [Outcome.state]⟩
  | succ f ih =>
    unfold DS1820WaitForEndConversion_sleep
    cases env.converting poll with
    | none => exact ⟨⟨0, by simp [Outcome.state, sleep_disable]⟩,
        by simp [Outcome.state, sleep_disable], by simp [Outcome.state, sleep_disable]⟩
    | some t =>
      have hs := sleep_tick_frame t (sleep_enable { d with SMCR := 0 })
      obtain ⟨⟨n, hn⟩, hmode, hwdt⟩ := ih (poll + 1)
        (sleep_cpu (fire TIMER0_COMPA_vect t) (sleep_enable { d with SMCR := 0 }))
      rw [hs.1] at hn
      rw [hs.2.1] at hmode
      rw [hs.2.2] at hwdt
      refine ⟨⟨n + 1, ?_⟩, ?_, ?_⟩
      · simp only [hn]
        simp [sleep_enable, List.replicate_succ]
      · simp only [hmode]
        simp [sleep_enable]
      · simp only [hwdt]
        simp [sleep_enable]

/-- Lines 255-284 in terms of the trace and the mode flag. -/
theorem wakeUpRefresh_frame (env : PassEnv) (d : Device R) :
    (wakeUpRefresh env d).trace = d.trace ++ [Event.writeWDTCSR (_BV WDCE ||| _BV WDE),
      Event.writeWDTCSR 0, Event.DS1820StartConversion, Event.startAdcConversion,
      Event.sleep_cpu, Event.writeTIMSK0 2] ∧
    (wakeUpRefresh env d).low_power_mode = 0 := by
  simp [wakeUpRefresh, setTIMSK0, ADC_OFF, startAdcConversion, sleep_cpu, sleep_enable,
    ADC_vect, DS1820StartConversion, setWDTCSR, ADC_ON, emit]

/-- Lines 288-293 in terms of the trace and the mode flag. -/
theorem wakeUpCollect_frame (M : MirfDriver R) (env : PassEnv) (d : Device R) :
    (wakeUpCollect M env d).trace
      = d.trace ++ [Event.DS1820ReadConversionResult, Event.powerUpRx] ∧
    (wakeUpCollect M env d).low_power_mode = d.low_power_mode := by
  simp [wakeUpCollect, DS1820ReadConversionResult, Mirf_powerUpRx, emit]

/-- The wake-up sequence of lines 254-294: its events are no packet processing,
and the mode flag is cleared, whether the probe wait returns or not. -/
theorem wakeUp_frame (M : MirfDriver R) (env : PassEnv) (fuel : Nat) (d : Device R) :
    (∃ evs, (wakeUp M env fuel d).state.trace = d.trace ++ evs ∧
      ∀ e ∈ evs, isPacketProcessing e = false) ∧
    (wakeUp M env fuel d).state.low_power_mode = 0 := by
  obtain ⟨htr, hlp⟩ := wakeUpRefresh_frame env d
  obtain ⟨⟨n, hn⟩, hmode, -⟩ :=
    DS1820WaitForEndConversion_sleep_frame env fuel 0 (wakeUpRefresh env d)
  unfold wakeUp
  cases hw : DS1820WaitForEndConversion_sleep env fuel 0 (wakeUpRefresh env d) with
  | returned dw =>
    rw [hw] at hn hmode
    simp only [Outcome.state] at hn hmode
    obtain ⟨hctr, hclp⟩ := wakeUpCollect_frame M env dw
    refine ⟨⟨[Event.writeWDTCSR (_BV WDCE ||| _BV WDE),
        Event.writeWDTCSR 0, Event.DS1820StartConversion, Event.startAdcConversion,
        Event.sleep_cpu, Event.writeTIMSK0 2] ++ List.replicate n Event.sleep_cpu
        ++ [Event.DS1820ReadConversionResult, Event.powerUpRx], ?_, ?_⟩, ?_⟩
    · simp only [Outcome.andThen, Outcome.state, hctr, hn, htr, List.append_assoc]
    · intro e he
      simp only [List.mem_append, List.mem_cons, List.mem_replicate, List.mem_singleton,
        List.not_mem_nil, or_false] at he
      rcases he with (((h | h | h | h | h | h) | ⟨_, h⟩) | h | h) <;> subst h <;> rfl
    · simp only [Outcome.andThen, Outcome.state, hclp, hmode, hlp]
  | spinning dw =>
    rw [hw] at hn hmode
    simp only [Outcome.state] at hn hmode
    refine ⟨⟨[Event.writeWDTCSR (_BV WDCE ||| _BV WDE),
        Event.writeWDTCSR 0, Event.DS1820StartConversion, Event.startAdcConversion,
        Event.sleep_cpu, Event.writeTIMSK0 2] ++ List.replicate n Event.sleep_cpu, ?_, ?_⟩, ?_⟩
    · simp only [Outcome.andThen, Outcome.state, hn, htr, List.append_assoc]
    · intro e he
      simp only [List.mem_append, List.mem_cons, List.mem_replicate, List.mem_singleton,
        List.not_mem_nil, or_false] at he
      rcases he with ((h | h | h | h | h | h) | ⟨_, h⟩) <;> subst h <;> rfl
    · simp only [Outcome.andThen, Outcome.state, hmode, hlp]

/-- C9. In a loop pass that starts with low_power_mode = 1 none of
Mirf.handleRxLoop, Mirf.handleTxLoop, Mirf.readPacket and Mirf.sendPacket is
called, and unless wdt_timer is LOW_POWER_CYCLES (8) at the start of the pass,
the pass returns with low_power_mode still 1. -/
theorem C9_no_packet_processing_asleep (M : MirfDriver R) (env : PassEnv) (fuel : Nat)
    (d : Device R) (hmode : d.low_power_mode = 1) :
    (∃ evs, (mainLoopPass M env fuel d).state.trace = d.trace ++ evs ∧
      ∀ e ∈ evs, isPacketProcessing e = false) ∧
    (d.wdt_timer ≠ LOW_POWER_CYCLES →
      ∃ dOut, mainLoopPass M env fuel d = .returned dOut ∧ dOut.low_power_mode = 1) := by
  by_cases hw : d.wdt_timer = LOW_POWER_CYCLES
  · refine ⟨?_, fun h => absurd hw h⟩
    simp only [mainLoopPass, hmode, hw, if_true]
    exact (wakeUp_frame M env fuel d).1
  · have hf := fire_WDT_frame env.wdtExpiries
      (emit Event.sleep_cpu (sleep_enable { setWDTCSR (d.WDTCSR ||| _BV WDIE) d with SMCR := 4 }))
    have hd : mainLoopPass M env fuel d = .returned (continueSleep env d) := by
      simp [mainLoopPass, hmode, hw]
    refine ⟨⟨[Event.writeWDTCSR (d.WDTCSR ||| _BV WDIE), Event.sleep_cpu], ?_, ?_⟩,
      fun _ => ⟨_, hd, ?_⟩⟩
    · rw [hd]
      simp only [Outcome.state, continueSleep, sleep_cpu, hf.1]
      simp [emit, sleep_enable, setWDTCSR]
    · intro e he
      simp only [List.mem_cons, List.mem_singleton, List.not_mem_nil, or_false] at he
      rcases he with h | h <;> subst h <;> rfl
    · simp only [continueSleep, sleep_cpu, hf.2]
      simp [emit, sleep_enable, setWDTCSR, hmode]

/-- Witness for C9: the sleeping sample device, one pass on. -/
theorem C9_no_packet_processing_asleep_witness :
    sampleAsleep.low_power_mode = 1 ∧
    (∃ evs, (mainLoopPass quietDriver sampleEnv 0 sampleAsleep).state.trace
        = sampleAsleep.trace ++ evs ∧
      ∀ e ∈ evs, isPacketProcessing e = false) ∧
    (sampleAsleep.wdt_timer ≠ LOW_POWER_CYCLES →
      ∃ dOut, mainLoopPass quietDriver sampleEnv 0 sampleAsleep = .returned dOut ∧
        dOut.low_power_mode = 1) :=
  ⟨rfl, C9_no_packet_processing_asleep quietDriver sampleEnv 0 sampleAsleep rfl⟩

/-- Passes compose: running a list of passes and then another list. -/
theorem runPasses_append (M : MirfDriver R) (fuel : Nat) (a b : List PassEnv) (d : Device R) :
    runPasses M fuel (a ++ b) d = (runPasses M fuel a d).andThen (runPasses M fuel b) := by
  induction a generalizing d with
  | nil => simp [runPasses, Outcome.andThen]
  | cons e es ih =>
    simp only [List.cons_append, runPasses]
    cases mainLoopPass M e fuel d with
    | returned d1 => simp [Outcome.andThen, ih]
    | spinning d1 => simp [Outcome.andThen]

/-- A pass spent asleep (lines 295-300) with one watchdog expiry: the mode flag
stays 1 and `wdt_timer` goes up by one. -/
theorem sleepPass_one_expiry (M : MirfDriver R) (env : PassEnv) (fuel : Nat) (d : Device R)
    (hmode : d.low_power_mode = 1) (hw : d.wdt_timer ≠ LOW_POWER_CYCLES)
    (hexp : env.wdtExpiries = 1) :
    ∃ dOut, mainLoopPass M env fuel d = .returned dOut ∧ dOut.low_power_mode = 1 ∧
      dOut.wdt_timer = (d.wdt_timer + 1) % 256 := by
  refine ⟨continueSleep env d, by simp [mainLoopPass, hmode, hw], ?_, ?_⟩ <;>
    simp [continueSleep, sleep_cpu, hexp, fire, WDT_vect, emit, sleep_enable, setWDTCSR, hmode]

/-- Consecutive passes asleep, one watchdog expiry each, as long as the count
stays within LOW_POWER_CYCLES: the mode flag stays 1 and `wdt_timer` counts the
expiries. -/
theorem sleepPasses_count (M : MirfDriver R) (fuel : Nat) (envs : List PassEnv) (d : Device R)
    (hmode : d.low_power_mode = 1)
    (hexp : ∀ e ∈ envs, e.wdtExpiries = 1)
    (hlen : d.wdt_timer + envs.length ≤ LOW_POWER_CYCLES) :
    ∃ dOut, runPasses M fuel envs d = .returned dOut ∧ dOut.low_power_mode = 1 ∧
      dOut.wdt_timer = d.wdt_timer + envs.length := by
  induction envs generalizing d with
  | nil => exact ⟨d, rfl, hmode, rfl⟩
  | cons e es ih =>
    simp only [List.length_cons, LOW_POWER_CYCLES] at hlen
    have hw : d.wdt_timer ≠ LOW_POWER_CYCLES := by simp only [LOW_POWER_CYCLES]; omega
    obtain ⟨d1, hd1, hm1, hw1⟩ :=
      sleepPass_one_expiry M e fuel d hmode hw (hexp e (List.mem_cons_self e es))
    have hw1b : d1.wdt_timer = d.wdt_timer + 1 := by rw [hw1]; omega
    obtain ⟨d2, hd2, hm2, hw2⟩ := ih d1 hm1
      (fun x hx => hexp x (List.mem_cons_of_mem e hx))
      (by simp only [LOW_POWER_CYCLES]; omega)
    refine ⟨d2, ?_, hm2, ?_⟩
    · simp [runPasses, hd1, Outcome.andThen, hd2]
    · rw [hw2, hw1b, List.length_cons]; omega

/-- The pass that enters power-down mode (lines 430-446), with one watchdog
expiry ending its sleep: the mode flag is 1 and `wdt_timer` is 1 afterwards. -/
theorem enterPass_one_expiry (M : MirfDriver R) (env : PassEnv) (fuel : Nat) (d : Device R)
    (hmode : d.low_power_mode ≠ 1)
    (hquiet : M.inPacketReady (pumpQueues M d).Mirf = false)
    (htimer : TIMER_3_SEC_PERIOD < d.longTimer)
    (hexp : env.wdtExpiries = 1) :
    ∃ dOut, mainLoopPass M env fuel d = .returned dOut ∧ dOut.low_power_mode = 1 ∧
      dOut.wdt_timer = 1 := by
  have hlt : (pumpQueues M d).longTimer = d.longTimer := by
    unfold pumpQueues
    split <;> simp [Mirf_handleRxLoop, Mirf_handleTxLoop, emit]
  refine ⟨enterPowerDown M env (pumpQueues M d), ?_, ?_, ?_⟩
  · simp [mainLoopPass, hmode, hquiet, hlt, htimer]
  · simp [enterPowerDown, sleep_cpu, hexp, fire, WDT_vect, emit, sleep_enable, setWDTCSR,
      setTIMSK0, Mirf_powerDown]
  · simp [enterPowerDown, sleep_cpu, hexp, fire, WDT_vect, emit, sleep_enable, setWDTCSR,
      setTIMSK0, Mirf_powerDown]

/-- C10. From the pass that enters power-down mode (no packet ready, longTimer
past the threshold), with each power-down sleep ended by exactly one watchdog
expiry: after the entering pass and any further k passes, k at most 7, the
device is still in low-power mode and wdt_timer counts the k + 1 expiries so
far; the pass after the 8th expiry clears low_power_mode. One sleep window thus
spans LOW_POWER_CYCLES = 8 watchdog periods. -/
theorem C10_sleep_window_is_eight_expiries (M : MirfDriver R) (fuel : Nat) (d : Device R)
    (envEnter : PassEnv) (envs : List PassEnv) (envWake : PassEnv)
    (hmode : d.low_power_mode ≠ 1)
    (hquiet : M.inPacketReady (pumpQueues M d).Mirf = false)
    (htimer : TIMER_3_SEC_PERIOD < d.longTimer)
    (hexp0 : envEnter.wdtExpiries = 1)
    (hexp : ∀ e ∈ envs, e.wdtExpiries = 1)
    (hlen : envs.length + 1 ≤ LOW_POWER_CYCLES) :
    (∃ dk, runPasses M fuel (envEnter :: envs) d = .returned dk ∧
      dk.low_power_mode = 1 ∧ dk.wdt_timer = envs.length + 1) ∧
    (envs.length + 1 = LOW_POWER_CYCLES →
      (runPasses M fuel (envEnter :: envs ++ [envWake]) d).state.low_power_mode = 0) := by
  obtain ⟨d1, hd1, hm1, hw1⟩ := enterPass_one_expiry M envEnter fuel d hmode hquiet htimer hexp0
  obtain ⟨dk, hdk, hmk, hwk⟩ := sleepPasses_count M fuel envs d1 hm1 hexp
    (by rw [hw1]; omega)
  have hrun : runPasses M fuel (envEnter :: envs) d = .returned dk := by
    simp [runPasses, hd1, Outcome.andThen, hdk]
  have hcount : dk.wdt_timer = envs.length + 1 := by rw [hwk, hw1]; omega
  refine ⟨⟨dk, hrun, hmk, hcount⟩, fun hfull => ?_⟩
  have hw8 : dk.wdt_timer = LOW_POWER_CYCLES := by rw [hcount, hfull]
  rw [runPasses_append, hrun]
  simp only [Outcome.andThen, runPasses, mainLoopPass, hmk, hw8, if_true]
  have hwake := (wakeUp_frame M envWake fuel dk).2
  cases hres : wakeUp M envWake fuel dk with
  | returned dw => rw [hres] at hwake; simpa [Outcome.state] using hwake
  | spinning dw => rw [hres] at hwake; simpa [Outcome.state] using hwake

/-- Witness for C10: the sample device at the end of its awake window, the
entering pass followed by seven passes asleep and the wake-up pass. -/
theorem C10_sleep_window_is_eight_expiries_witness :
    sampleWindowOver.low_power_mode ≠ 1 ∧
    quietDriver.inPacketReady (pumpQueues quietDriver sampleWindowOver).Mirf = false ∧
    TIMER_3_SEC_PERIOD < sampleWindowOver.longTimer ∧
    sampleEnv.wdtExpiries = 1 ∧
    (∀ e ∈ List.replicate 7 sampleEnv, e.wdtExpiries = 1) ∧
    (List.replicate 7 sampleEnv).length + 1 ≤ LOW_POWER_CYCLES ∧
    (∃ dk, runPasses quietDriver 0 (sampleEnv :: List.replicate 7 sampleEnv) sampleWindowOver
        = .returned dk ∧
      dk.low_power_mode = 1 ∧ dk.wdt_timer = (List.replicate 7 sampleEnv).length + 1) ∧
    ((List.replicate 7 sampleEnv).length + 1 = LOW_POWER_CYCLES →
      (runPasses quietDriver 0 (sampleEnv :: List.replicate 7 sampleEnv ++ [sampleEnv])
        sampleWindowOver).state.low_power_mode = 0) :=
  ⟨by decide, rfl, by decide, rfl, fun e he => by rw [List.eq_of_mem_replicate he]; rfl,
    by decide,
    C10_sleep_window_is_eight_expiries quietDriver 0 sampleWindowOver sampleEnv
      (List.replicate 7 sampleEnv) sampleEnv (by decide) rfl (by decide) rfl
      (fun e he => by rw [List.eq_of_mem_replicate he]; rfl) (by decide)⟩

/-! ## Sensor 2 and the awake window -/

/-- Lines 381-397 in terms of the trace and the fields they leave alone. -/
theorem sendSensor2_frame (M : MirfDriver R) (d : Device R) :
    (sendSensor2 M d).trace
      = d.trace ++ [Event.sendPacket (sendSensor2 M d).outPacket, Event.handleTxLoop] ∧
    (sendSensor2 M d).longTimer = d.longTimer ∧
    (sendSensor2 M d).low_power_mode = d.low_power_mode ∧
    (sendSensor2 M d).ds1820Temp = d.ds1820Temp ∧
    (sendSensor2 M d).actual_Vcc = d.actual_Vcc := by
  simp [sendSensor2, setRes, Mirf_sendPacket, Mirf_handleTxLoop, emit]

/-- Lines 329-334 only touch `outPacket`. -/
theorem beginResponse_frame (d : Device R) :
    (beginResponse d).trace = d.trace ∧
    (beginResponse d).longTimer = d.longTimer ∧
    (beginResponse d).low_power_mode = d.low_power_mode ∧
    (beginResponse d).ds1820Temp = d.ds1820Temp ∧
    (beginResponse d).actual_Vcc = d.actual_Vcc := by
  simp [beginResponse, setRes]

/-- A REQUEST for sensor 2 goes to the sensor-2 branch, whatever its command. -/
theorem dispatch_sensor2 (M : MirfDriver R) (env : PassEnv) (fuel : Nat) (d : Device R)
    (htype : d.inPacket.type = .REQUEST) (hsensor : d.inPacket.payload.req.for_sensor = 2) :
    dispatch M env fuel d
      = (handleSensor2 M fuel (beginResponse d)).andThen
          fun d => .returned (flushInFifo M d) := by
  simp [dispatch, handleRequest, htype, hsensor]

/-- Evaluation for C13 at its failing inputs. With longTimer = 0 a successful
answer for sensor 2 leaves longTimer = 300, which is not past the threshold:
the next pass with no packet ready idles and stays in normal mode. With
longTimer = 65535 the 16-bit addition wraps to 299. -/
theorem C13_credit_can_miss_threshold :
    (sampleWithRequest .READ 2 0).longTimer = 0 ∧
    quietDriver.sendResult
      (sendSensor2 quietDriver (beginResponse (sampleWithRequest .READ 2 0))).Mirf = .SUCCESS ∧
    (∃ dOut, dispatch quietDriver sampleEnv 0 (sampleWithRequest .READ 2 0) = .returned dOut ∧
      dOut.longTimer = 300 ∧ ¬ (dOut.longTimer > TIMER_3_SEC_PERIOD) ∧
      quietDriver.inPacketReady (pumpQueues quietDriver dOut).Mirf = false ∧
      mainLoopPass quietDriver sampleEnv 0 dOut
        = .returned (idleSleep sampleEnv (pumpQueues quietDriver dOut)) ∧
      (mainLoopPass quietDriver sampleEnv 0 dOut).state.low_power_mode = 0) ∧
    (∃ dOut, dispatch quietDriver sampleEnv 0
        { sampleWithRequest .READ 2 0 with longTimer := 65535 } = .returned dOut ∧
      dOut.longTimer = 299) :=
  ⟨rfl, rfl, ⟨_, rfl, rfl, by decide, rfl, rfl, rfl⟩, ⟨_, rfl, rfl⟩⟩

/-- C14. When the send result read after handleTxLoop is a failure (neither
SUCCESS nor PROCESSING), handling a REQUEST for sensor 2 returns with longTimer
and low_power_mode unchanged, so a device in normal mode (low_power_mode = 0)
stays in it. -/
theorem C14_send_failure_keeps_window (M : MirfDriver R) (env : PassEnv) (fuel : Nat)
    (d : Device R) (htype : d.inPacket.type = .REQUEST)
    (hsensor : d.inPacket.payload.req.for_sensor = 2)
    (hnotok : M.sendResult (sendSensor2 M (beginResponse d)).Mirf ≠ .SUCCESS)
    (hdone : M.sendResult (sendSensor2 M (beginResponse d)).Mirf ≠ .PROCESSING) :
    ∃ dOut, dispatch M env fuel d = .returned dOut ∧
      dOut.longTimer = d.longTimer ∧
      dOut.low_power_mode = d.low_power_mode ∧
      (d.low_power_mode = 0 → dOut.low_power_mode = 0) := by
  have hs := sendSensor2_frame M (beginResponse d)
  have hb := beginResponse_frame d
  have hf := flushInFifo_frame M (sendSensor2 M (beginResponse d))
  refine ⟨flushInFifo M (sendSensor2 M (beginResponse d)), ?_, ?_, ?_, ?_⟩
  · rw [dispatch_sensor2 M env fuel d htype hsensor, handleSensor2_eq, if_neg hdone,
      if_neg hnotok]
    rfl
  · rw [hf.2.2.2.2.2.1, hs.2.1, hb.2.1]
  · rw [hf.2.2.2.2.2.2.1, hs.2.2.1, hb.2.2.1]
  · intro h0
    rw [hf.2.2.2.2.2.2.1, hs.2.2.1, hb.2.2.1, h0]

/-- Witness for C14: the sample device answering sensor 2 over a radio whose
sends fail. -/
theorem C14_send_failure_keeps_window_witness :
    (sampleWithRequest .READ 2 0).inPacket.type = .REQUEST ∧
    (sampleWithRequest .READ 2 0).inPacket.payload.req.for_sensor = 2 ∧
    failingDriver.sendResult
      (sendSensor2 failingDriver (beginResponse (sampleWithRequest .READ 2 0))).Mirf
        ≠ .SUCCESS ∧
    failingDriver.sendResult
      (sendSensor2 failingDriver (beginResponse (sampleWithRequest .READ 2 0))).Mirf
        ≠ .PROCESSING ∧
    ∃ dOut, dispatch failingDriver sampleEnv 0 (sampleWithRequest .READ 2 0) = .returned dOut ∧
      dOut.longTimer = (sampleWithRequest .READ 2 0).longTimer ∧
      dOut.low_power_mode = (sampleWithRequest .READ 2 0).low_power_mode ∧
      ((sampleWithRequest .READ 2 0).low_power_mode = 0 → dOut.low_power_mode = 0) :=
  ⟨rfl, rfl, by decide, by decide,
    C14_send_failure_keeps_window failingDriver sampleEnv 0 (sampleWithRequest .READ 2 0)
      rfl rfl (by decide) (by decide)⟩

/-! ## Calibration byte and start-up -/

/-- Lines 184-186: the calibration cached by `setup`. -/
theorem setup_internalTempCalib (B : MirfStartup R) (M : MirfDriver R) (d : Device R) :
    (setup B M d).internalTempCalib
      = if d.eeprom SENSOR_0_CALIB_ADDR = 0xFF then 128 else d.eeprom SENSOR_0_CALIB_ADDR := by
  unfold setup
  by_cases h : d.eeprom SENSOR_0_CALIB_ADDR = 0xFF <;>
    simp [eeprom_read_byte, h, Mirf_powerUpRx, setTIMSK0, emit]

/-- C15. After setup the cached calibration is 128 when the byte stored at the
calibration address is 0xFF and that byte otherwise, so it is never 0xFF right
after setup; and when CALIBRATION_WRITE with payload 0xFF has been handled (in a
state where a cached 0xFF can only mirror a stored 0xFF), setup after a reset
that keeps the EEPROM caches 128. -/
theorem C15_calibration_sentinel (B : MirfStartup R) (M : MirfDriver R) (env : PassEnv)
    (fuel : Nat) (dBoot d dReset : Device R)
    (htype : d.inPacket.type = .REQUEST)
    (hsensor : d.inPacket.payload.req.for_sensor = 0)
    (hcmd : d.inPacket.payload.req.cmd = .CALIBRATION_WRITE)
    (hval : d.inPacket.payload.req.payload 0 = 0xFF)
    (hsync : d.internalTempCalib = 0xFF → d.eeprom SENSOR_0_CALIB_ADDR = 0xFF)
    (hreset : dReset.eeprom = (dispatch M env fuel d).state.eeprom) :
    (setup B M dBoot).internalTempCalib
      = (if dBoot.eeprom SENSOR_0_CALIB_ADDR = 0xFF then 128
         else dBoot.eeprom SENSOR_0_CALIB_ADDR) ∧
    (setup B M dBoot).internalTempCalib ≠ 0xFF ∧
    (dispatch M env fuel d).state.internalTempCalib = 0xFF ∧
    (setup B M dReset).internalTempCalib = 128 := by
  have hd : dispatch M env fuel d
      = .returned (flushInFifo M (handleSensor0 M env (beginResponse d))) := by
    simp [dispatch, handleRequest, htype, hsensor, Outcome.andThen]
  have hee : (dispatch M env fuel d).state.eeprom SENSOR_0_CALIB_ADDR = 0xFF := by
    rw [hd, Outcome.state, (flushInFifo_frame M _).2.2.2.2.2.2.2.2]
    by_cases hc : d.internalTempCalib = 0xFF
    · simp [handleSensor0, beginResponse, setRes, hcmd, hval, hc, hsync hc]
    · simp [handleSensor0, beginResponse, setRes, hcmd, hval, hc, eeprom_write_byte, emit,
        setByte]
  have hcal : (dispatch M env fuel d).state.internalTempCalib = 0xFF := by
    rw [hd, Outcome.state, (flushInFifo_frame M _).2.2.1]
    by_cases hc : d.internalTempCalib = 0xFF
    · simp [handleSensor0, beginResponse, setRes, hcmd, hval, hc]
    · simp [handleSensor0, beginResponse, setRes, hcmd, hval, hc, eeprom_write_byte, emit]
  refine ⟨setup_internalTempCalib B M dBoot, ?_, hcal, ?_⟩
  · rw [setup_internalTempCalib]
    split
    · decide
    · assumption
  · rw [setup_internalTempCalib, hreset, hee]
    rfl

/-- Witness for C15: 0xFF written over the cached 128 of the sample device,
then a reset that keeps the EEPROM. -/
theorem C15_calibration_sentinel_witness :
    (sampleWithRequest .CALIBRATION_WRITE 0 0xFF).inPacket.type = .REQUEST ∧
    (sampleWithRequest .CALIBRATION_WRITE 0 0xFF).inPacket.payload.req.for_sensor = 0 ∧
    (sampleWithRequest .CALIBRATION_WRITE 0 0xFF).inPacket.payload.req.cmd
      = .CALIBRATION_WRITE ∧
    (sampleWithRequest .CALIBRATION_WRITE 0 0xFF).inPacket.payload.req.payload 0 = 0xFF ∧
    ((sampleWithRequest .CALIBRATION_WRITE 0 0xFF).internalTempCalib = 0xFF →
      (sampleWithRequest .CALIBRATION_WRITE 0 0xFF).eeprom SENSOR_0_CALIB_ADDR = 0xFF) ∧
    ({ sampleDevice with eeprom := (dispatch quietDriver sampleEnv 0
        (sampleWithRequest .CALIBRATION_WRITE 0 0xFF)).state.eeprom } : Device Unit).eeprom
      = (dispatch quietDriver sampleEnv 0
          (sampleWithRequest .CALIBRATION_WRITE 0 0xFF)).state.eeprom ∧
    (setup quietStartup quietDriver sampleDevice).internalTempCalib
      = (if sampleDevice.eeprom SENSOR_0_CALIB_ADDR = 0xFF then 128
         else sampleDevice.eeprom SENSOR_0_CALIB_ADDR) ∧
    (setup quietStartup quietDriver sampleDevice).internalTempCalib ≠ 0xFF ∧
    (dispatch quietDriver sampleEnv 0
      (sampleWithRequest .CALIBRATION_WRITE 0 0xFF)).state.internalTempCalib = 0xFF ∧
    (setup quietStartup quietDriver
      { sampleDevice with eeprom := (dispatch quietDriver sampleEnv 0
        (sampleWithRequest .CALIBRATION_WRITE 0 0xFF)).state.eeprom }).internalTempCalib
      = 128 :=
  ⟨rfl, rfl, rfl, rfl, fun _ => rfl, rfl,
    C15_calibration_sentinel quietStartup quietDriver sampleEnv 0 sampleDevice
      (sampleWithRequest .CALIBRATION_WRITE 0 0xFF)
      { sampleDevice with eeprom := (dispatch quietDriver sampleEnv 0
        (sampleWithRequest .CALIBRATION_WRITE 0 0xFF)).state.eeprom }
      rfl rfl rfl rfl (fun _ => rfl) rfl⟩

/-- The flush of lines 422-425 adds at most one `handleTxLoop` event. -/
theorem flushInFifo_trace (M : MirfDriver R) (d : Device R) :
    (flushInFifo M d).trace = d.trace ∨
    (flushInFifo M d).trace = d.trace ++ [Event.handleTxLoop] := by
  unfold flushInFifo
  split
  · right; simp [Mirf_handleTxLoop, emit]
  · left; rfl

/-- C16. Handling a REQUEST for sensor 2 hands exactly one packet to
sendPacket: a RESPONSE with len = 3 and payload [ds1820Temp.lsb, ds1820Temp.msb,
actual_Vcc] taken from the cached values. No event of the handling is a probe
conversion start, a probe result read or an ADC conversion, and ds1820Temp and
actual_Vcc are unchanged. This holds whether or not the wait of line 398 is
left. -/
theorem C16_sensor2_reads_cache (M : MirfDriver R) (env : PassEnv) (fuel : Nat)
    (d : Device R) (htype : d.inPacket.type = .REQUEST)
    (hsensor : d.inPacket.payload.req.for_sensor = 2) :
    ∃ pkt evs, (dispatch M env fuel d).state.trace = d.trace ++ evs ∧
      sentPackets evs = [pkt] ∧
      (∀ e ∈ evs, isConversion e = false) ∧
      pkt.type = .RESPONSE ∧ pkt.payload.res.len = 3 ∧
      pkt.payload.res.payload 0 = d.ds1820Temp.lsb ∧
      pkt.payload.res.payload 1 = d.ds1820Temp.msb ∧
      pkt.payload.res.payload 2 = d.actual_Vcc ∧
      (dispatch M env fuel d).state.ds1820Temp = d.ds1820Temp ∧
      (dispatch M env fuel d).state.actual_Vcc = d.actual_Vcc := by
  obtain ⟨htr, -, -, hds, hvcc⟩ := sendSensor2_frame M (beginResponse d)
  obtain ⟨hbtr, -, -, hbds, hbvcc⟩ := beginResponse_frame d
  rw [hbtr] at htr
  rw [hbds] at hds
  rw [hbvcc] at hvcc
  have hpkt : (sendSensor2 M (beginResponse d)).outPacket.type = .RESPONSE ∧
      (sendSensor2 M (beginResponse d)).outPacket.payload.res.len = 3 ∧
      (sendSensor2 M (beginResponse d)).outPacket.payload.res.payload 0 = d.ds1820Temp.lsb ∧
      (sendSensor2 M (beginResponse d)).outPacket.payload.res.payload 1 = d.ds1820Temp.msb ∧
      (sendSensor2 M (beginResponse d)).outPacket.payload.res.payload 2 = d.actual_Vcc := by
    simp [sendSensor2, beginResponse, setRes, Mirf_sendPacket, Mirf_handleTxLoop, emit, setByte]
  have hshort : ∀ e ∈ [Event.sendPacket (sendSensor2 M (beginResponse d)).outPacket,
      Event.handleTxLoop], isConversion e = false := by
    intro e he
    simp only [List.mem_cons, List.mem_singleton, List.not_mem_nil, or_false] at he
    rcases he with h | h <;> subst h <;> rfl
  have hlong : ∀ e ∈ [Event.sendPacket (sendSensor2 M (beginResponse d)).outPacket,
      Event.handleTxLoop, Event.handleTxLoop], isConversion e = false := by
    intro e he
    simp only [List.mem_cons, List.mem_singleton, List.not_mem_nil, or_false] at he
    rcases he with h | h | h <;> subst h <;> rfl
  -- the state the dispatcher ends in: stuck in the wait, or flushed after it
  have hstate : (dispatch M env fuel d).state = sendSensor2 M (beginResponse d) ∨
      ∃ dW, (dispatch M env fuel d).state = flushInFifo M dW ∧
        dW.trace = (sendSensor2 M (beginResponse d)).trace ∧
        dW.ds1820Temp = (sendSensor2 M (beginResponse d)).ds1820Temp ∧
        dW.actual_Vcc = (sendSensor2 M (beginResponse d)).actual_Vcc := by
    rw [dispatch_sensor2 M env fuel d htype hsensor, handleSensor2_eq]
    split
    · left; rfl
    · right
      split
      · exact ⟨_, rfl, rfl, rfl, rfl⟩
      · exact ⟨_, rfl, rfl, rfl, rfl⟩
  rcases hstate with hst | ⟨dW, hst, hwtr, hwds, hwvcc⟩
  · exact ⟨_, _, by rw [hst, htr], by simp [sentPackets], hshort, hpkt.1, hpkt.2.1,
      hpkt.2.2.1, hpkt.2.2.2.1, hpkt.2.2.2.2, by rw [hst, hds], by rw [hst, hvcc]⟩
  · have hfr := flushInFifo_frame M dW
    rcases flushInFifo_trace M dW with hft | hft
    · exact ⟨_, _, by rw [hst, hft, hwtr, htr], by simp [sentPackets], hshort, hpkt.1,
        hpkt.2.1, hpkt.2.2.1, hpkt.2.2.2.1, hpkt.2.2.2.2,
        by rw [hst, hfr.2.2.2.1, hwds, hds], by rw [hst, hfr.2.2.2.2.1, hwvcc, hvcc]⟩
    · exact ⟨_, _, by rw [hst, hft, hwtr, htr, List.append_assoc]; rfl,
        by simp [sentPackets], hlong, hpkt.1,
        hpkt.2.1, hpkt.2.2.1, hpkt.2.2.2.1, hpkt.2.2.2.2,
        by rw [hst, hfr.2.2.2.1, hwds, hds], by rw [hst, hfr.2.2.2.2.1, hwvcc, hvcc]⟩

/-- Witness for C16: the sample device answering a READ of sensor 2. -/
theorem C16_sensor2_reads_cache_witness :
    (sampleWithRequest .READ 2 0).inPacket.type = .REQUEST ∧
    (sampleWithRequest .READ 2 0).inPacket.payload.req.for_sensor = 2 ∧
    ∃ pkt evs, (dispatch quietDriver sampleEnv 0 (sampleWithRequest .READ 2 0)).state.trace
        = (sampleWithRequest .READ 2 0).trace ++ evs ∧
      sentPackets evs = [pkt] ∧
      (∀ e ∈ evs, isConversion e = false) ∧
      pkt.type = .RESPONSE ∧ pkt.payload.res.len = 3 ∧
      pkt.payload.res.payload 0 = (sampleWithRequest .READ 2 0).ds1820Temp.lsb ∧
      pkt.payload.res.payload 1 = (sampleWithRequest .READ 2 0).ds1820Temp.msb ∧
      pkt.payload.res.payload 2 = (sampleWithRequest .READ 2 0).actual_Vcc ∧
      (dispatch quietDriver sampleEnv 0 (sampleWithRequest .READ 2 0)).state.ds1820Temp
        = (sampleWithRequest .READ 2 0).ds1820Temp ∧
      (dispatch quietDriver sampleEnv 0 (sampleWithRequest .READ 2 0)).state.actual_Vcc
        = (sampleWithRequest .READ 2 0).actual_Vcc :=
  ⟨rfl, rfl,
    C16_sensor2_reads_cache quietDriver sampleEnv 0 (sampleWithRequest .READ 2 0) rfl rfl⟩

/-! ## Supply-voltage byte -/

/-- C17. For every ADC count A in 220..1023 the byte stored in actual_Vcc (at
start-up, line 241, and at wake-up, line 279) is the quotient 56265 / A with
nothing cut off by the 8-bit store; the quotient lies in 55..255 and equals
(1125300 / A) / 20, the original millivolt formula divided by 20. At the ends of
the expected battery range, with the count for a supply of V millivolts being
1125300 / V: 1800 mV is count 625 and gives 90, 5092 mV is count 220 and gives
255. -/
theorem C17_vcc_byte (t0 : PACKET_TYPE) (c0 : CMD_TYPE) (env : PassEnv) (d : Device R)
    (hlo : 220 ≤ env.ADCW) (hhi : env.ADCW ≤ 1023) :
    (wakeUpRefresh env d).actual_Vcc = 56265 / env.ADCW ∧
    (mainMeasure t0 c0 env d).actual_Vcc = 56265 / env.ADCW ∧
    55 ≤ 56265 / env.ADCW ∧ 56265 / env.ADCW ≤ 255 ∧
    56265 / env.ADCW = (1125300 / env.ADCW) / 20 ∧
    1125300 / 1800 = 625 ∧ vccReading 625 = 90 ∧
    1125300 / 5092 = 220 ∧ vccReading 220 = 255 := by
  have hpos : 0 < env.ADCW := by omega
  have hle : 56265 / env.ADCW ≤ 255 := by
    have : 56265 / env.ADCW < 256 := by
      rw [Nat.div_lt_iff_lt_mul hpos]; omega
    omega
  have hge : 55 ≤ 56265 / env.ADCW := by
    rw [Nat.le_div_iff_mul_le hpos]; omega
  have hmod : vccReading env.ADCW = 56265 / env.ADCW := by
    unfold vccReading
    exact Nat.mod_eq_of_lt (by omega)
  have hmv : 56265 / env.ADCW = (1125300 / env.ADCW) / 20 := by
    rw [Nat.div_div_eq_div_mul]
    have h20 : 1125300 = 56265 * 20 := by norm_num
    rw [h20, Nat.mul_div_mul_right _ _ (by norm_num : 0 < 20)]
  refine ⟨?_, ?_, hge, hle, hmv, by decide, by decide, by decide, by decide⟩
  · rw [← hmod]
    simp [wakeUpRefresh, setTIMSK0, ADC_OFF, startAdcConversion, sleep_cpu, sleep_enable,
      ADC_vect, DS1820StartConversion, setWDTCSR, ADC_ON, emit]
  · rw [← hmod]
    simp [mainMeasure, ADC_OFF, startAdcConversion, sleep_cpu, sleep_enable, ADC_vect,
      DS1820ReadConversionResult, emit]

/-- Witness for C17: ADC count 350 (3215 mV). -/
theorem C17_vcc_byte_witness :
    220 ≤ sampleEnv.ADCW ∧ sampleEnv.ADCW ≤ 1023 ∧
    (wakeUpRefresh sampleEnv sampleDevice).actual_Vcc = 56265 / sampleEnv.ADCW ∧
    (mainMeasure (PACKET_TYPE.other 0) (CMD_TYPE.other 0) sampleEnv sampleDevice).actual_Vcc
      = 56265 / sampleEnv.ADCW ∧
    55 ≤ 56265 / sampleEnv.ADCW ∧ 56265 / sampleEnv.ADCW ≤ 255 ∧
    56265 / sampleEnv.ADCW = (1125300 / sampleEnv.ADCW) / 20 ∧
    1125300 / 1800 = 625 ∧ vccReading 625 = 90 ∧
    1125300 / 5092 = 220 ∧ vccReading 220 = 255 :=
  ⟨by decide, by decide,
    C17_vcc_byte (PACKET_TYPE.other 0) (CMD_TYPE.other 0) sampleEnv sampleDevice
      (by decide) (by decide)⟩

/-! ## Leaving power-down mode, and the receiver address of answers -/

set_option maxRecDepth 20000 in
/-- Evaluation for C18 at its failing inputs. When the 8-bit tick counter is 0
as the wake-up pass starts and 255 ticks go by during the probe wait, or is 255
as the pass starts, the increment of line 293 wraps it to 0: the pass ends with
low_power_mode = 0 and wdt_timer = 0 but timerInterruptTriggered = 0, and the
next pass does not call handleRxLoop or handleTxLoop (its only event is the
idle sleep). -/
theorem C18_forced_pump_can_wrap :
    (sampleWakeDue 0).low_power_mode = 1 ∧ (sampleWakeDue 0).wdt_timer = 8 ∧
    (sampleWakeDue 0).timerInterruptTriggered = 0 ∧
    mainLoopPass quietDriver (sampleEnvSlowProbe 255) 255 (sampleWakeDue 0)
      = .returned sampleWokenSlow ∧
    sampleWokenSlow.low_power_mode = 0 ∧ sampleWokenSlow.wdt_timer = 0 ∧
    sampleWokenSlow.timerInterruptTriggered = 0 ∧
    (mainLoopPass quietDriver sampleEnv 0 sampleWokenSlow).state.trace
      = sampleWokenSlow.trace ++ [Event.sleep_cpu] ∧
    (sampleWakeDue 255).low_power_mode = 1 ∧ (sampleWakeDue 255).wdt_timer = 8 ∧
    (sampleWakeDue 255).timerInterruptTriggered = 255 ∧
    mainLoopPass quietDriver sampleEnv 0 (sampleWakeDue 255) = .returned sampleWokenFull ∧
    sampleWokenFull.low_power_mode = 0 ∧ sampleWokenFull.wdt_timer = 0 ∧
    sampleWokenFull.timerInterruptTriggered = 0 ∧
    (mainLoopPass quietDriver sampleEnv 0 sampleWokenFull).state.trace
      = sampleWokenFull.trace ++ [Event.sleep_cpu] :=
  ⟨rfl, rfl, rfl, rfl, rfl, rfl, rfl, rfl, rfl, rfl, rfl, rfl, rfl, rfl, rfl, rfl⟩

/-- Evaluation for C19 at its failing inputs. The PRESENTATION_REQUEST branch
never stores `outPacket.rxAddr`: start-up leaves it 0, so a presentation
request from address 1 handled first is answered to address 0; handled after a
REQUEST from address 7 it is answered to address 7. -/
theorem C19_presentation_response_keeps_stale_rxAddr :
    (∀ (t0 : PACKET_TYPE) (c0 : CMD_TYPE) (env : PassEnv) (d : Device Unit),
      (mainMeasure t0 c0 env d).outPacket.rxAddr = 0) ∧
    sampleDevice.outPacket.rxAddr = 0 ∧
    presentationRequestPacket.txAddr = 1 ∧
    (∃ dOut pkt, dispatch quietDriver sampleEnv 0
        { sampleDevice with inPacket := presentationRequestPacket } = .returned dOut ∧
      sentPackets dOut.trace = [pkt] ∧ pkt.type = .PRESENTATION_RESPONSE ∧ pkt.rxAddr = 0) ∧
    (∃ d1 p1 d2 p2, dispatch quietDriver sampleEnv 0
        { sampleDevice with inPacket := { requestPacket .READ 1 0 with txAddr := 7 } }
          = .returned d1 ∧
      sentPackets d1.trace = [p1] ∧ p1.type = .RESPONSE ∧ p1.rxAddr = 7 ∧
      dispatch quietDriver sampleEnv 0 { d1 with inPacket := presentationRequestPacket }
          = .returned d2 ∧
      sentPackets d2.trace = [p1, p2] ∧ p2.type = .PRESENTATION_RESPONSE ∧ p2.rxAddr = 7) :=
  ⟨fun _ _ _ _ => rfl, rfl, rfl, ⟨_, _, rfl, rfl, rfl, rfl⟩,
    ⟨_, _, _, _, rfl, rfl, rfl, rfl, rfl, rfl, rfl, rfl⟩⟩

/-! ## Steps that are no change of power mode -/

/-- A step is quiet when it keeps the four fields, extends the trace and adds no
mode-switch event to it. -/
theorem quiet_of_trace (d dNext : Device R)
    (hmode : dNext.low_power_mode = d.low_power_mode) (hwdt : dNext.wdt_timer = d.wdt_timer)
    (ht : dNext.TIMSK0 = d.TIMSK0) (hw : dNext.WDTCSR = d.WDTCSR)
    (hpre : d.trace <+: dNext.trace)
    (hfil : dNext.trace.filter isModeSwitch = d.trace.filter isModeSwitch) :
    Quiet d dNext := by
  obtain ⟨evs, hevs⟩ := hpre
  refine ⟨hmode, hwdt, ht, hw, evs, hevs.symm, ?_⟩
  rw [← hevs, List.filter_append, List.append_right_eq_self, List.filter_eq_nil_iff] at hfil
  intro e he
  simpa using hfil e he

theorem Quiet.refl (d : Device R) : Quiet d d :=
  ⟨rfl, rfl, rfl, rfl, [], by simp, by simp⟩

theorem Quiet.trans {a b c : Device R} (hab : Quiet a b) (hbc : Quiet b c) : Quiet a c := by
  obtain ⟨h1, h2, h3, h4, e1, ht1, hp1⟩ := hab
  obtain ⟨k1, k2, k3, k4, e2, ht2, hp2⟩ := hbc
  refine ⟨k1.trans h1, k2.trans h2, k3.trans h3, k4.trans h4, e1 ++ e2, ?_, ?_⟩
  · rw [ht2, ht1, List.append_assoc]
  · intro e he
    rcases List.mem_append.mp he with h | h
    · exact hp1 e h
    · exact hp2 e h

theorem beginResponse_quiet (d : Device R) : Quiet d (beginResponse d) := by
  apply quiet_of_trace <;> simp [beginResponse, setRes]

theorem handleSensor0_quiet (M : MirfDriver R) (env : PassEnv) (d : Device R) :
    Quiet d (handleSensor0 M env d) := by
  unfold handleSensor0
  simp only []
  split_ifs <;> apply quiet_of_trace <;>
    simp [setRes, Mirf_sendPacket, emit, startAdcConversion, sleep_cpu, sleep_enable, ADC_vect,
      ADC_ON, ADC_OFF, eeprom_write_byte, isModeSwitch]

theorem handleSensor1_quiet (M : MirfDriver R) (d : Device R) :
    Quiet d (handleSensor1 M d) := by
  unfold handleSensor1
  simp only []
  split_ifs <;> apply quiet_of_trace <;> simp [setRes, Mirf_sendPacket, emit, isModeSwitch]

theorem sendSensor2_quiet (M : MirfDriver R) (d : Device R) :
    Quiet d (sendSensor2 M d) := by
  apply quiet_of_trace <;>
    simp [sendSensor2, setRes, Mirf_sendPacket, Mirf_handleTxLoop, emit, isModeSwitch]

theorem handleSensor2_quiet (M : MirfDriver R) (fuel : Nat) (d : Device R) :
    Quiet d (handleSensor2 M fuel d).state := by
  rw [handleSensor2_eq]
  split_ifs
  · exact sendSensor2_quiet M d
  · refine (sendSensor2_quiet M d).trans ?_
    apply quiet_of_trace <;> simp [Outcome.state]
  · exact sendSensor2_quiet M d

theorem handleSensor3_quiet (M : MirfDriver R) (d : Device R) :
    Quiet d (handleSensor3 M d) := by
  apply quiet_of_trace <;> simp [handleSensor3, setRes, Mirf_sendPacket, emit, isModeSwitch]

theorem handlePresentationRequest_quiet (M : MirfDriver R) (d : Device R) :
    Quiet d (handlePresentationRequest M d) := by
  apply quiet_of_trace <;>
    simp [handlePresentationRequest, setPres, Mirf_sendPacket, emit, isModeSwitch]

theorem flushInFifo_quiet (M : MirfDriver R) (d : Device R) :
    Quiet d (flushInFifo M d) := by
  unfold flushInFifo
  split_ifs <;> apply quiet_of_trace <;> simp [Mirf_handleTxLoop, emit, isModeSwitch]

theorem handleRequest_quiet (M : MirfDriver R) (env : PassEnv) (fuel : Nat) (d : Device R) :
    Quiet d (handleRequest M env fuel d).state := by
  unfold handleRequest
  simp only []
  split_ifs
  · exact (beginResponse_quiet d).trans (handleSensor0_quiet M env _)
  · exact (beginResponse_quiet d).trans (handleSensor1_quiet M _)
  · exact (beginResponse_quiet d).trans (handleSensor2_quiet M fuel _)
  · exact (beginResponse_quiet d).trans (handleSensor3_quiet M _)
  · exact beginResponse_quiet d

/-- The dispatcher (lines 326-425) is no change of power mode, whether it
returns or stays in the wait of line 398. -/
theorem dispatch_quiet (M : MirfDriver R) (env : PassEnv) (fuel : Nat) (d : Device R) :
    Quiet d (dispatch M env fuel d).state := by
  have hflush : ∀ o : Outcome R, Quiet d o.state →
      Quiet d (o.andThen fun x => Outcome.returned (flushInFifo M x)).state := by
    intro o ho
    cases o with
    | returned x => exact ho.trans (flushInFifo_quiet M x)
    | spinning x => exact ho
  unfold dispatch
  apply hflush
  split_ifs
  · exact handleRequest_quiet M env fuel d
  · exact handlePresentationRequest_quiet M d
  · exact Quiet.refl d

theorem pumpQueues_quiet (M : MirfDriver R) (d : Device R) : Quiet d (pumpQueues M d) := by
  unfold pumpQueues
  split_ifs <;> apply quiet_of_trace <;>
    simp [Mirf_handleRxLoop, Mirf_handleTxLoop, emit, isModeSwitch]

theorem Mirf_readPacket_quiet (M : MirfDriver R) (d : Device R) :
    Quiet d (Mirf_readPacket M d) := by
  apply quiet_of_trace <;> simp [Mirf_readPacket, emit, isModeSwitch]

/-- Timer ticks leave the two interrupt-enable registers alone. -/
theorem fire_TIMER0_regs (n : Nat) (d : Device R) :
    (fire TIMER0_COMPA_vect n d).TIMSK0 = d.TIMSK0 ∧
    (fire TIMER0_COMPA_vect n d).WDTCSR = d.WDTCSR := by
  induction n generalizing d with
  | zero => simp [fire]
  | succ k ih =>
    have h := ih (TIMER0_COMPA_vect d)
    simpa [fire, TIMER0_COMPA_vect] using h

/-- An idle sleep ended by timer ticks is no change of power mode. -/
theorem sleep_tick_quiet (t : Nat) (d : Device R) :
    Quiet d (sleep_cpu (fire TIMER0_COMPA_vect t) d) := by
  have hf := fire_TIMER0_frame t (emit Event.sleep_cpu d)
  have hr := fire_TIMER0_regs t (emit Event.sleep_cpu d)
  refine ⟨?_, ?_, ?_, ?_, [Event.sleep_cpu], ?_, ?_⟩
  · unfold sleep_cpu; rw [hf.2.1]; rfl
  · unfold sleep_cpu; rw [hf.2.2]; rfl
  · unfold sleep_cpu; rw [hr.1]; rfl
  · unfold sleep_cpu; rw [hr.2]; rfl
  · unfold sleep_cpu; rw [hf.1]; rfl
  · intro e he
    simp only [List.mem_singleton] at he
    subst he; rfl

theorem idleSleep_quiet (env : PassEnv) (d : Device R) : Quiet d (idleSleep env d) := by
  unfold idleSleep
  have h1 : Quiet d (sleep_enable d) := by
    apply quiet_of_trace <;> simp [sleep_enable]
  have h2 := sleep_tick_quiet env.timerTicks (sleep_enable d)
  have h3 : Quiet (sleep_cpu (fire TIMER0_COMPA_vect env.timerTicks) (sleep_enable d))
      (sleep_disable (sleep_cpu (fire TIMER0_COMPA_vect env.timerTicks) (sleep_enable d))) := by
    apply quiet_of_trace <;> simp [sleep_disable]
  exact (h1.trans h2).trans h3

/-! ## The main loop in normal mode -/

/-- Lines 430-446 are lines 430-444 followed by the suspension. -/
theorem enterPowerDown_eq (M : MirfDriver R) (env : PassEnv) (d : Device R) :
    enterPowerDown M env d
      = sleep_cpu (fire WDT_vect env.wdtExpiries) (armPowerDown M d) := rfl

/-- Lines 430-444 in terms of the trace and the fields they set. -/
theorem armPowerDown_frame (M : MirfDriver R) (d : Device R) :
    (armPowerDown M d).trace = d.trace ++ [Event.writeTIMSK0 0,
      Event.writeWDTCSR (_BV WDCE ||| _BV WDE ||| _BV WDP3 ||| _BV WDP0),
      Event.writeWDTCSR (_BV WDIE ||| _BV WDP3 ||| _BV WDP0), Event.powerDown] ∧
    (armPowerDown M d).TIMSK0 = 0 ∧
    (armPowerDown M d).WDTCSR = _BV WDIE ||| _BV WDP3 ||| _BV WDP0 ∧
    (armPowerDown M d).wdt_timer = 0 ∧
    (armPowerDown M d).longTimer = 0 ∧
    (armPowerDown M d).low_power_mode = 1 := by
  simp [armPowerDown, setTIMSK0, setWDTCSR, Mirf_powerDown, sleep_enable, emit]

/-- A power-down sleep ended by watchdog expiries adds one `sleep_cpu` event and
keeps the mode flag and the two interrupt-enable registers. -/
theorem sleep_wdt_frame (n : Nat) (d : Device R) :
    (sleep_cpu (fire WDT_vect n) d).trace = d.trace ++ [Event.sleep_cpu] ∧
    (sleep_cpu (fire WDT_vect n) d).low_power_mode = d.low_power_mode ∧
    (sleep_cpu (fire WDT_vect n) d).TIMSK0 = d.TIMSK0 ∧
    (sleep_cpu (fire WDT_vect n) d).WDTCSR = d.WDTCSR := by
  have hregs : ∀ (k : Nat) (x : Device R), (fire WDT_vect k x).TIMSK0 = x.TIMSK0 ∧
      (fire WDT_vect k x).WDTCSR = x.WDTCSR := by
    intro k
    induction k with
    | zero => intro x; simp [fire]
    | succ j ih => intro x; simpa [fire, WDT_vect] using ih (WDT_vect x)
  have hf := fire_WDT_frame n (emit Event.sleep_cpu d)
  have hr := hregs n (emit Event.sleep_cpu d)
  unfold sleep_cpu
  rw [hf.1, hf.2, hr.1, hr.2]
  simp [emit]

/-- C11. A loop pass that starts in normal mode (low_power_mode = 0): when a
packet is ready after the queue service, the pass reads and dispatches it and
makes no sleep transition, whatever longTimer is (mode flag still 0, TIMSK0 and
WDTCSR untouched, no powerDown call and no store to TIMSK0 or WDTCSR among its
events); when no packet is ready the pass returns, in low-power mode iff
longTimer > TIMER_3_SEC_PERIOD, and in that case the state in which the CPU is
suspended has TIMSK0 = 0, WDTCSR = WDIE|WDP3|WDP0 (0x61), wdt_timer = 0,
longTimer = 0 and low_power_mode = 1, the events of the transition being the
TIMSK0 store, the two WDTCSR stores, Mirf.powerDown and then the suspension. -/
theorem C11_responsive_pass (M : MirfDriver R) (env : PassEnv) (fuel : Nat) (d : Device R)
    (hmode : d.low_power_mode = 0) :
    (M.inPacketReady (pumpQueues M d).Mirf = true →
      mainLoopPass M env fuel d = dispatch M env fuel (Mirf_readPacket M (pumpQueues M d)) ∧
      (mainLoopPass M env fuel d).state.low_power_mode = 0 ∧
      (mainLoopPass M env fuel d).state.TIMSK0 = d.TIMSK0 ∧
      (mainLoopPass M env fuel d).state.WDTCSR = d.WDTCSR ∧
      ∃ evs, (mainLoopPass M env fuel d).state.trace = d.trace ++ evs ∧
        ∀ e ∈ evs, isModeSwitch e = false) ∧
    (M.inPacketReady (pumpQueues M d).Mirf = false →
      ∃ dOut, mainLoopPass M env fuel d = .returned dOut ∧
        (dOut.low_power_mode = 1 ↔ d.longTimer > TIMER_3_SEC_PERIOD) ∧
        (d.longTimer > TIMER_3_SEC_PERIOD →
          dOut = sleep_cpu (fire WDT_vect env.wdtExpiries) (armPowerDown M (pumpQueues M d)) ∧
          (armPowerDown M (pumpQueues M d)).TIMSK0 = 0 ∧
          (armPowerDown M (pumpQueues M d)).WDTCSR = _BV WDIE ||| _BV WDP3 ||| _BV WDP0 ∧
          _BV WDIE ||| _BV WDP3 ||| _BV WDP0 = 0x61 ∧
          (armPowerDown M (pumpQueues M d)).wdt_timer = 0 ∧
          (armPowerDown M (pumpQueues M d)).longTimer = 0 ∧
          (armPowerDown M (pumpQueues M d)).low_power_mode = 1 ∧
          dOut.trace = (pumpQueues M d).trace ++ [Event.writeTIMSK0 0,
            Event.writeWDTCSR (_BV WDCE ||| _BV WDE ||| _BV WDP3 ||| _BV WDP0),
            Event.writeWDTCSR (_BV WDIE ||| _BV WDP3 ||| _BV WDP0), Event.powerDown,
            Event.sleep_cpu])) := by
  have hne : ¬ d.low_power_mode = 1 := by rw [hmode]; decide
  have hpq := pumpQueues_quiet M d
  have hlt : (pumpQueues M d).longTimer = d.longTimer := by
    unfold pumpQueues
    split <;> simp [Mirf_handleRxLoop, Mirf_handleTxLoop, emit]
  constructor
  · intro hready
    have hpass : mainLoopPass M env fuel d
        = dispatch M env fuel (Mirf_readPacket M (pumpQueues M d)) := by
      simp [mainLoopPass, hne, hready]
    have hq : Quiet d (mainLoopPass M env fuel d).state := by
      rw [hpass]
      exact (hpq.trans (Mirf_readPacket_quiet M _)).trans (dispatch_quiet M env fuel _)
    obtain ⟨h1, -, h3, h4, evs, h5, h6⟩ := hq
    exact ⟨hpass, h1.trans hmode, h3, h4, evs, h5, h6⟩
  · intro hquiet
    by_cases hover : d.longTimer > TIMER_3_SEC_PERIOD
    · have hpass : mainLoopPass M env fuel d
          = .returned (enterPowerDown M env (pumpQueues M d)) := by
        simp [mainLoopPass, hne, hquiet, hlt, hover]
      obtain ⟨atr, at0, aw, awdt, alt, alp⟩ := armPowerDown_frame M (pumpQueues M d)
      obtain ⟨str, slp, -, -⟩ := sleep_wdt_frame env.wdtExpiries (armPowerDown M (pumpQueues M d))
      refine ⟨_, hpass, ?_, fun _ => ⟨enterPowerDown_eq M env _, at0, aw, by decide, awdt, alt,
        alp, ?_⟩⟩
      · rw [enterPowerDown_eq, slp, alp]
        simp [hover]
      · rw [enterPowerDown_eq, str, atr, List.append_assoc]
        rfl
    · have hpass : mainLoopPass M env fuel d
          = .returned (idleSleep env (pumpQueues M d)) := by
        simp [mainLoopPass, hne, hquiet, hlt, hover]
      have hq := hpq.trans (idleSleep_quiet env (pumpQueues M d))
      refine ⟨_, hpass, ?_, fun h => absurd h hover⟩
      rw [hq.1, hmode]
      simp [hover]

/-- Witness for C11: the sample device at the end of its awake window, once
with a packet waiting and once without. -/
theorem C11_responsive_pass_witness :
    sampleWindowOver.low_power_mode = 0 ∧
    readyDriver.inPacketReady (pumpQueues readyDriver sampleWindowOver).Mirf = true ∧
    (mainLoopPass readyDriver sampleEnv 0 sampleWindowOver
        = dispatch readyDriver sampleEnv 0
            (Mirf_readPacket readyDriver (pumpQueues readyDriver sampleWindowOver)) ∧
      (mainLoopPass readyDriver sampleEnv 0 sampleWindowOver).state.low_power_mode = 0 ∧
      (mainLoopPass readyDriver sampleEnv 0 sampleWindowOver).state.TIMSK0
        = sampleWindowOver.TIMSK0 ∧
      (mainLoopPass readyDriver sampleEnv 0 sampleWindowOver).state.WDTCSR
        = sampleWindowOver.WDTCSR ∧
      ∃ evs, (mainLoopPass readyDriver sampleEnv 0 sampleWindowOver).state.trace
          = sampleWindowOver.trace ++ evs ∧
        ∀ e ∈ evs, isModeSwitch e = false) ∧
    quietDriver.inPacketReady (pumpQueues quietDriver sampleWindowOver).Mirf = false ∧
    (∃ dOut, mainLoopPass quietDriver sampleEnv 0 sampleWindowOver = .returned dOut ∧
      (dOut.low_power_mode = 1 ↔ sampleWindowOver.longTimer > TIMER_3_SEC_PERIOD) ∧
      (sampleWindowOver.longTimer > TIMER_3_SEC_PERIOD →
        dOut = sleep_cpu (fire WDT_vect sampleEnv.wdtExpiries)
          (armPowerDown quietDriver (pumpQueues quietDriver sampleWindowOver)) ∧
        (armPowerDown quietDriver (pumpQueues quietDriver sampleWindowOver)).TIMSK0 = 0 ∧
        (armPowerDown quietDriver (pumpQueues quietDriver sampleWindowOver)).WDTCSR
          = _BV WDIE ||| _BV WDP3 ||| _BV WDP0 ∧
        _BV WDIE ||| _BV WDP3 ||| _BV WDP0 = 0x61 ∧
        (armPowerDown quietDriver (pumpQueues quietDriver sampleWindowOver)).wdt_timer = 0 ∧
        (armPowerDown quietDriver (pumpQueues quietDriver sampleWindowOver)).longTimer = 0 ∧
        (armPowerDown quietDriver (pumpQueues quietDriver sampleWindowOver)).low_power_mode
          = 1 ∧
        dOut.trace = (pumpQueues quietDriver sampleWindowOver).trace ++ [Event.writeTIMSK0 0,
          Event.writeWDTCSR (_BV WDCE ||| _BV WDE ||| _BV WDP3 ||| _BV WDP0),
          Event.writeWDTCSR (_BV WDIE ||| _BV WDP3 ||| _BV WDP0), Event.powerDown,
          Event.sleep_cpu])) :=
  ⟨rfl, rfl, (C11_responsive_pass readyDriver sampleEnv 0 sampleWindowOver rfl).1 rfl, rfl,
    (C11_responsive_pass quietDriver sampleEnv 0 sampleWindowOver rfl).2 rfl⟩

/-! ## The interrupt-enable discipline of `main` -/

theorem regsAfter_append (t w : Nat) (a b : List Event) :
    regsAfter t w (a ++ b) = regsAfter (regsAfter t w a).1 (regsAfter t w a).2 b := by
  induction a generalizing t w with
  | nil => rfl
  | cons e es ih => cases e <;> simp [regsAfter, ih]

theorem safeWrites_append (t w : Nat) (a b : List Event) :
    safeWrites t w (a ++ b)
      = (safeWrites t w a && safeWrites (regsAfter t w a).1 (regsAfter t w a).2 b) := by
  induction a generalizing t w with
  | nil => simp [safeWrites, regsAfter]
  | cons e es ih => cases e <;> simp [safeWrites, regsAfter, ih, Bool.and_assoc]

/-- Events that are no mode switch store nothing to the two registers. -/
theorem regs_of_no_switch (t w : Nat) (evs : List Event)
    (h : ∀ e ∈ evs, isModeSwitch e = false) :
    regsAfter t w evs = (t, w) ∧ safeWrites t w evs = true := by
  induction evs with
  | nil => exact ⟨rfl, rfl⟩
  | cons e es ih =>
    have hes := ih (fun x hx => h x (List.mem_cons_of_mem e hx))
    have he := h e (List.mem_cons_self e es)
    cases e <;> simp_all [regsAfter, safeWrites, isModeSwitch]

/-- A quiet step keeps the invariant of `main`. -/
theorem WriteInv_of_quiet (t0 w0 : Nat) (d dNext : Device R) (hinv : WriteInv t0 w0 d)
    (hq : Quiet d dNext) : WriteInv t0 w0 dNext := by
  obtain ⟨hsafe, hregs, hlow, hnorm⟩ := hinv
  obtain ⟨hmode, -, ht, hw, evs, htr, hev⟩ := hq
  obtain ⟨hr, hs⟩ := regs_of_no_switch d.TIMSK0 d.WDTCSR evs hev
  refine ⟨?_, ?_, ?_, ?_⟩
  · rw [htr, safeWrites_append, hsafe, hregs, hs]
    rfl
  · rw [htr, regsAfter_append, hregs, hr, ht, hw]
  · rw [hmode, ht]
    exact hlow
  · rw [hmode, hw]
    exact hnorm

/-- Lines 255-284 leave the timer tick enabled and the watchdog register clear. -/
theorem wakeUpRefresh_regs (env : PassEnv) (d : Device R) :
    (wakeUpRefresh env d).TIMSK0 = 2 ∧ (wakeUpRefresh env d).WDTCSR = 0 := by
  simp [wakeUpRefresh, setTIMSK0, ADC_OFF, startAdcConversion, sleep_cpu, sleep_enable,
    ADC_vect, DS1820StartConversion, setWDTCSR, ADC_ON, emit]

/-- Lines 255-284 keep the invariant of `main`: the watchdog interrupt is off
before the timer tick is enabled. -/
theorem WriteInv_wakeUpRefresh (t0 w0 : Nat) (env : PassEnv) (d : Device R)
    (hinv : WriteInv t0 w0 d) : WriteInv t0 w0 (wakeUpRefresh env d) := by
  obtain ⟨hsafe, hregs, -, -⟩ := hinv
  obtain ⟨htr, hlp⟩ := wakeUpRefresh_frame env d
  obtain ⟨ht, hw⟩ := wakeUpRefresh_regs env d
  have hoff1 : wdtIntEnabled (_BV WDCE ||| _BV WDE) = false := by decide
  have hoff2 : wdtIntEnabled 0 = false := by decide
  refine ⟨?_, ?_, ?_, ?_⟩
  · rw [htr, safeWrites_append, hsafe, hregs]
    simp [safeWrites, hoff1, hoff2]
  · rw [htr, regsAfter_append, hregs, ht, hw]
    simp [regsAfter]
  · rw [hlp]
    intro h
    exact absurd h (by decide)
  · intro _
    rw [hw]
    exact hoff2

/-- The probe wait of lines 128-138 is no change of power mode. -/
theorem DS1820WaitForEndConversion_sleep_quiet (env : PassEnv) (fuel poll : Nat)
    (d : Device R) : Quiet d (DS1820WaitForEndConversion_sleep env fuel poll d).state := by
  induction fuel generalizing poll d with
  | zero =>
    unfold DS1820WaitForEndConversion_sleep
    cases env.converting poll with
    | none => apply quiet_of_trace <;> simp [Outcome.state, sleep_disable]
    | some t => exact Quiet.refl d
  | succ f ih =>
    unfold DS1820WaitForEndConversion_sleep
    cases env.converting poll with
    | none => apply quiet_of_trace <;> simp [Outcome.state, sleep_disable]
    | some t =>
      have h1 : Quiet d (sleep_enable { d with SMCR := 0 }) := by
        apply quiet_of_trace <;> simp [sleep_enable]
      have h2 := sleep_tick_quiet t (sleep_enable { d with SMCR := 0 })
      exact (h1.trans h2).trans (ih (poll + 1) _)

theorem wakeUpCollect_quiet (M : MirfDriver R) (env : PassEnv) (d : Device R) :
    Quiet d (wakeUpCollect M env d) := by
  apply quiet_of_trace <;>
    simp [wakeUpCollect, DS1820ReadConversionResult, Mirf_powerUpRx, emit, isModeSwitch]

/-- The wake-up sequence keeps the invariant of `main`, whether the probe wait
returns or not. -/
theorem WriteInv_wakeUp (t0 w0 : Nat) (M : MirfDriver R) (env : PassEnv) (fuel : Nat)
    (d : Device R) (hinv : WriteInv t0 w0 d) : WriteInv t0 w0 (wakeUp M env fuel d).state := by
  have h1 := WriteInv_wakeUpRefresh t0 w0 env d hinv
  have h2 := DS1820WaitForEndConversion_sleep_quiet env fuel 0 (wakeUpRefresh env d)
  unfold wakeUp
  cases hw : DS1820WaitForEndConversion_sleep env fuel 0 (wakeUpRefresh env d) with
  | returned x =>
    rw [hw] at h2
    exact WriteInv_of_quiet t0 w0 _ _ h1 (h2.trans (wakeUpCollect_quiet M env x))
  | spinning x =>
    rw [hw] at h2
    exact WriteInv_of_quiet t0 w0 _ _ h1 h2

/-- Lines 295-300 in terms of the trace and the registers. -/
theorem continueSleep_frame (env : PassEnv) (d : Device R) :
    (continueSleep env d).trace
      = d.trace ++ [Event.writeWDTCSR (d.WDTCSR ||| _BV WDIE), Event.sleep_cpu] ∧
    (continueSleep env d).low_power_mode = d.low_power_mode ∧
    (continueSleep env d).TIMSK0 = d.TIMSK0 ∧
    (continueSleep env d).WDTCSR = d.WDTCSR ||| _BV WDIE := by
  obtain ⟨h1, h2, h3, h4⟩ := sleep_wdt_frame env.wdtExpiries
    (sleep_enable { setWDTCSR (d.WDTCSR ||| _BV WDIE) d with SMCR := 4 })
  unfold continueSleep
  simp only []
  rw [h1, h2, h3, h4]
  simp [sleep_enable, setWDTCSR, emit]

/-- The re-arm of lines 295-300 keeps the invariant of `main`: in low-power
mode the timer tick is disabled when the watchdog interrupt is enabled again. -/
theorem WriteInv_continueSleep (t0 w0 : Nat) (env : PassEnv) (d : Device R)
    (hinv : WriteInv t0 w0 d) (hmode : d.low_power_mode = 1) :
    WriteInv t0 w0 (continueSleep env d) := by
  obtain ⟨hsafe, hregs, hlow, -⟩ := hinv
  obtain ⟨htr, hlp, ht, hw⟩ := continueSleep_frame env d
  have htick := hlow hmode
  refine ⟨?_, ?_, ?_, ?_⟩
  · rw [htr, safeWrites_append, hsafe, hregs]
    simp [safeWrites, htick]
  · rw [htr, regsAfter_append, hregs, ht, hw]
    simp [regsAfter]
  · intro _
    rw [ht]
    exact htick
  · intro h
    rw [hlp] at h
    exact absurd hmode h

/-- The transition of lines 430-446 keeps the invariant of `main`: the timer
tick is disabled before the watchdog interrupt is enabled. -/
theorem WriteInv_enterPowerDown (t0 w0 : Nat) (M : MirfDriver R) (env : PassEnv)
    (d : Device R) (hinv : WriteInv t0 w0 d) : WriteInv t0 w0 (enterPowerDown M env d) := by
  obtain ⟨hsafe, hregs, -, -⟩ := hinv
  obtain ⟨atr, at0, aw, -, -, alp⟩ := armPowerDown_frame M d
  obtain ⟨str, slp, st, sw⟩ := sleep_wdt_frame env.wdtExpiries (armPowerDown M d)
  have hoff : tickEnabled 0 = false := by decide
  rw [enterPowerDown_eq]
  refine ⟨?_, ?_, ?_, ?_⟩
  · rw [str, atr, List.append_assoc, safeWrites_append, hsafe, hregs]
    simp [safeWrites, hoff]
  · rw [str, atr, List.append_assoc, regsAfter_append, hregs, st, sw, at0, aw]
    simp [regsAfter]
  · intro _
    rw [st, at0]
    exact hoff
  · intro h
    rw [slp, alp] at h
    exact absurd rfl h

/-- One pass of the loop keeps the invariant of `main`. -/
theorem WriteInv_mainLoopPass (t0 w0 : Nat) (M : MirfDriver R) (env : PassEnv) (fuel : Nat)
    (d : Device R) (hinv : WriteInv t0 w0 d) :
    WriteInv t0 w0 (mainLoopPass M env fuel d).state := by
  unfold mainLoopPass
  simp only []
  split_ifs with hmode hwdt hready hover
  · exact WriteInv_wakeUp t0 w0 M env fuel d hinv
  · exact WriteInv_continueSleep t0 w0 env d hinv hmode
  · exact WriteInv_of_quiet t0 w0 _ _ hinv
      (((pumpQueues_quiet M d).trans (Mirf_readPacket_quiet M _)).trans
        (dispatch_quiet M env fuel _))
  · exact WriteInv_enterPowerDown t0 w0 M env _
      (WriteInv_of_quiet t0 w0 _ _ hinv (pumpQueues_quiet M d))
  · exact WriteInv_of_quiet t0 w0 _ _ hinv
      ((pumpQueues_quiet M d).trans (idleSleep_quiet env _))

/-- Any number of passes keeps the invariant of `main`. -/
theorem WriteInv_runPasses (t0 w0 : Nat) (M : MirfDriver R) (fuel : Nat)
    (envs : List PassEnv) (d : Device R) (hinv : WriteInv t0 w0 d) :
    WriteInv t0 w0 (runPasses M fuel envs d).state := by
  induction envs generalizing d with
  | nil => exact hinv
  | cons e es ih =>
    have h := WriteInv_mainLoopPass t0 w0 M e fuel d hinv
    unfold runPasses
    cases hp : mainLoopPass M e fuel d with
    | returned x =>
      rw [hp] at h
      exact ih x h
    | spinning x =>
      rw [hp] at h
      exact h

/-- The busy wait of lines 120-123 changes nothing. -/
theorem DS1820WaitForEndConversion_loop_state (env : PassEnv) (fuel poll : Nat)
    (d : Device R) : (DS1820WaitForEndConversion_loop env fuel poll d).state = d := by
  induction fuel generalizing poll with
  | zero =>
    rw [DS1820WaitForEndConversion_loop]
    cases env.converting poll <;> rfl
  | succ f ih =>
    rw [DS1820WaitForEndConversion_loop]
    cases env.converting poll with
    | none => rfl
    | some t => exact ih (poll + 1)

/-- Lines 228-233 in terms of the trace, the mode flag and the registers. -/
theorem mainStart_frame (B : MirfStartup R) (M : MirfDriver R) (d : Device R) :
    (mainStart B M d).trace = d.trace ++ [Event.writeWDTCSR (d.WDTCSR ||| (_BV WDCE ||| _BV WDE)),
      Event.writeWDTCSR 0, Event.powerUpRx, Event.writeTIMSK0 2,
      Event.DS1820StartConversion] ∧
    (mainStart B M d).low_power_mode = d.low_power_mode ∧
    (mainStart B M d).TIMSK0 = 2 ∧ (mainStart B M d).WDTCSR = 0 := by
  unfold mainStart setup
  simp only []
  split_ifs <;>
    simp [wdt_disable, DS1820StartConversion, setWDTCSR, setTIMSK0, Mirf_powerUpRx, emit]

theorem mainMeasure_quiet (t0 : PACKET_TYPE) (c0 : CMD_TYPE) (env : PassEnv) (d : Device R) :
    Quiet d (mainMeasure t0 c0 env d) := by
  apply quiet_of_trace <;>
    simp [mainMeasure, ADC_OFF, startAdcConversion, sleep_cpu, sleep_enable, ADC_vect,
      DS1820ReadConversionResult, emit, isModeSwitch]

/-- Start-up establishes the invariant of `main` from a reset state in which
the timer tick is disabled. -/
theorem WriteInv_mainInit (B : MirfStartup R) (M : MirfDriver R) (t0 : PACKET_TYPE)
    (c0 : CMD_TYPE) (env : PassEnv) (fuel : Nat) (d : Device R)
    (htrace : d.trace = []) (hmode : d.low_power_mode = 0)
    (htick : tickEnabled d.TIMSK0 = false) :
    WriteInv d.TIMSK0 d.WDTCSR (mainInit B M t0 c0 env fuel d).state := by
  obtain ⟨htr, hlp, ht, hw⟩ := mainStart_frame B M d
  have hoff : wdtIntEnabled 0 = false := by decide
  have hstart : WriteInv d.TIMSK0 d.WDTCSR (mainStart B M d) := by
    refine ⟨?_, ?_, ?_, ?_⟩
    · rw [htr, htrace]
      simp [safeWrites, htick, hoff]
    · rw [htr, htrace, ht, hw]
      simp [regsAfter]
    · intro h
      rw [hlp, hmode] at h
      exact absurd h (by decide)
    · intro _
      rw [hw]
      exact hoff
  have hloop := DS1820WaitForEndConversion_loop_state env fuel 0 (mainStart B M d)
  unfold mainInit
  cases hl : DS1820WaitForEndConversion_loop env fuel 0 (mainStart B M d) with
  | returned x =>
    rw [hl] at hloop
    simp only [Outcome.state] at hloop
    subst hloop
    exact WriteInv_of_quiet _ _ _ _ hstart (mainMeasure_quiet t0 c0 env _)
  | spinning x =>
    rw [hl] at hloop
    simp only [Outcome.state] at hloop
    subst hloop
    exact hstart

/-- C12. From a reset state (empty history, low_power_mode = 0, timer tick
disabled), through start-up and any number of loop passes: no store to TIMSK0
or WDTCSR leaves the timer-tick interrupt enable (OCIE0A) and the watchdog
interrupt enable (WDIE) set together; in the state reached the tick is disabled
whenever the device is in low-power mode, so the re-arm of lines 295-300 only
runs with the tick disabled, and WDIE is clear outside low-power mode. On
entering power-down mode the stores are TIMSK0 = 0, then the two WDTCSR stores;
on leaving it the two WDTCSR stores that turn the watchdog off come before
TIMSK0 = 2; the re-arm stores WDTCSR | WDIE and nothing to TIMSK0. -/
theorem C12_tick_and_watchdog_never_both (B : MirfStartup R) (M : MirfDriver R)
    (t0 : PACKET_TYPE) (c0 : CMD_TYPE) (envInit : PassEnv) (fuel : Nat)
    (envs : List PassEnv) (d : Device R)
    (htrace : d.trace = []) (hmode : d.low_power_mode = 0)
    (htick : tickEnabled d.TIMSK0 = false) :
    safeWrites d.TIMSK0 d.WDTCSR (main B M t0 c0 envInit fuel envs d).state.trace = true ∧
    ((main B M t0 c0 envInit fuel envs d).state.low_power_mode = 1 →
      tickEnabled (main B M t0 c0 envInit fuel envs d).state.TIMSK0 = false) ∧
    ((main B M t0 c0 envInit fuel envs d).state.low_power_mode ≠ 1 →
      wdtIntEnabled (main B M t0 c0 envInit fuel envs d).state.WDTCSR = false) ∧
    (∀ x : Device R, (armPowerDown M x).trace = x.trace ++ [Event.writeTIMSK0 0,
      Event.writeWDTCSR (_BV WDCE ||| _BV WDE ||| _BV WDP3 ||| _BV WDP0),
      Event.writeWDTCSR (_BV WDIE ||| _BV WDP3 ||| _BV WDP0), Event.powerDown]) ∧
    (∀ (env : PassEnv) (x : Device R), (wakeUpRefresh env x).trace
      = x.trace ++ [Event.writeWDTCSR (_BV WDCE ||| _BV WDE), Event.writeWDTCSR 0,
        Event.DS1820StartConversion, Event.startAdcConversion, Event.sleep_cpu,
        Event.writeTIMSK0 2]) ∧
    (∀ (env : PassEnv) (x : Device R), (continueSleep env x).trace
      = x.trace ++ [Event.writeWDTCSR (x.WDTCSR ||| _BV WDIE), Event.sleep_cpu]) := by
  have hinit := WriteInv_mainInit B M t0 c0 envInit fuel d htrace hmode htick
  have hmain : WriteInv d.TIMSK0 d.WDTCSR (main B M t0 c0 envInit fuel envs d).state := by
    unfold main
    cases hi : mainInit B M t0 c0 envInit fuel d with
    | returned x =>
      rw [hi] at hinit
      exact WriteInv_runPasses _ _ M fuel envs x hinit
    | spinning x =>
      rw [hi] at hinit
      exact hinit
  exact ⟨hmain.1, hmain.2.2.1, hmain.2.2.2, fun x => (armPowerDown_frame M x).1,
    fun env x => (wakeUpRefresh_frame env x).1, fun env x => (continueSleep_frame env x).1⟩

/-- Witness for C12: the sample device from reset, through start-up, an idle
pass, the pass that enters power-down mode, passes asleep and the wake-up
pass. -/
theorem C12_tick_and_watchdog_never_both_witness :
    sampleReset.trace = [] ∧ sampleReset.low_power_mode = 0 ∧
    tickEnabled sampleReset.TIMSK0 = false ∧
    safeWrites sampleReset.TIMSK0 sampleReset.WDTCSR
      (main quietStartup quietDriver (PACKET_TYPE.other 0) (CMD_TYPE.other 0) sampleEnv 0
        sampleCycleEnvs sampleReset).state.trace = true ∧
    ((main quietStartup quietDriver (PACKET_TYPE.other 0) (CMD_TYPE.other 0) sampleEnv 0
        sampleCycleEnvs sampleReset).state.low_power_mode = 1 →
      tickEnabled (main quietStartup quietDriver (PACKET_TYPE.other 0) (CMD_TYPE.other 0)
        sampleEnv 0 sampleCycleEnvs sampleReset).state.TIMSK0 = false) ∧
    ((main quietStartup quietDriver (PACKET_TYPE.other 0) (CMD_TYPE.other 0) sampleEnv 0
        sampleCycleEnvs sampleReset).state.low_power_mode ≠ 1 →
      wdtIntEnabled (main quietStartup quietDriver (PACKET_TYPE.other 0) (CMD_TYPE.other 0)
        sampleEnv 0 sampleCycleEnvs sampleReset).state.WDTCSR = false) :=
  ⟨rfl, rfl, by decide,
    (C12_tick_and_watchdog_never_both quietStartup quietDriver (PACKET_TYPE.other 0)
      (CMD_TYPE.other 0) sampleEnv 0 sampleCycleEnvs sampleReset rfl rfl (by decide)).1,
    (C12_tick_and_watchdog_never_both quietStartup quietDriver (PACKET_TYPE.other 0)
      (CMD_TYPE.other 0) sampleEnv 0 sampleCycleEnvs sampleReset rfl rfl (by decide)).2.1,
    (C12_tick_and_watchdog_never_both quietStartup quietDriver (PACKET_TYPE.other 0)
      (CMD_TYPE.other 0) sampleEnv 0 sampleCycleEnvs sampleReset rfl rfl (by decide)).2.2.1⟩

end NrfComm
